import Mathlib

/-!
# LeakWatch dashboard: the client-side state engine

A shallow embedding of `frontend/src/App.jsx` (component `Dashboard`): the
telemetry window, the alert log, the analytics refresh, the ticket row of the
incident log and the map projection. State setters become pure functions
from the previous state to the next one; a network round trip is a value of
`FetchOutcome` supplied by the environment; a JavaScript exception is the
`error` case of `Except JsError`.
-/

set_option autoImplicit false

namespace LeakWatch

/-! ## JavaScript values -/

/-- The JavaScript values that reach the dashboard state: what `JSON.parse`
and `Response.json()` produce, plus `undefined` (a missing property or array
element). Numbers are restricted to integers (the claims only look at their
truthiness, equality and decimal rendering as a property key). An object is
the list of its own properties. -/
inductive JVal where
  | undefined
  | null
  | bool (b : Bool)
  | num (n : Int)
  | str (s : String)
  | arr (xs : List JVal)
  | obj (kvs : List (String × JVal))
  deriving Repr, Inhabited

/-- The exceptions the embedded code can raise. -/
inductive JsError where
  | typeError
  | syntaxError
  | error
  deriving Repr, DecidableEq

namespace JVal

/-- JavaScript `ToBoolean`: `undefined`, `null`, `false`, `0` and `''` are
falsy, everything else (every array and object included) is truthy. -/
def truthy : JVal → Bool
  | undefined => false
  | null => false
  | bool b => b
  | num n => n != 0
  | str s => s != ""
  | arr _ => true
  | obj _ => true

/-- The values on which a property read throws: `null` and `undefined`. -/
def isNullish : JVal → Bool
  | undefined => true
  | null => true
  | _ => false

/-- The function `Array.isArray`. -/
def isArray : JVal → Bool
  | arr _ => true
  | _ => false

/-- The operator `===`. Primitives compare by value. Objects and arrays
compare by reference; every comparison in the embedded code has operands that
come from different `JSON.parse` results (ticket against alert, alert
against topology) or a string literal, so two objects are never the same
reference and the result is `false`. -/
def strictEq : JVal → JVal → Bool
  | undefined, undefined => true
  | null, null => true
  | bool a, bool b => a == b
  | num a, num b => a == b
  | str a, str b => a == b
  | _, _ => false

/-- Own-property lookup in the property list of an object. -/
def lookup (k : String) : List (String × JVal) → JVal
  | [] => undefined
  | (k', v) :: rest => if k' = k then v else lookup k rest

/-- Element `i` of an array, `undefined` past the end. -/
def index : List JVal → Nat → JVal
  | [], _ => undefined
  | x :: _, 0 => x
  | _ :: rest, i + 1 => index rest i

/-- The read `v[k]` on a receiver that is not nullish. An object yields its
own property or `undefined`. An array yields the element whose index prints
as `k`, or its `length`. Inherited members (methods of the prototypes)
are functions, which are not JSON values: they read as `undefined`, which is
indistinguishable from a function for every use the embedded code makes
of a read value (`===` against a string or a JSON value, `?.status`). -/
def member (v : JVal) (k : String) : JVal :=
  match v with
  | obj kvs => lookup k kvs
  | arr xs =>
    if k = "length" then num xs.length
    else match (List.range xs.length).find? (fun i => toString i == k) with
      | some i => index xs i
      | none => undefined
  | _ => undefined

/-- The read `v.k`: throws a `TypeError` on `null` and `undefined`. -/
def getProp (v : JVal) (k : String) : Except JsError JVal :=
  if v.isNullish then .error .typeError else .ok (member v k)

/-- The read `v?.k`: `undefined` on `null` and `undefined`, never throws. -/
def getPropOpt (v : JVal) (k : String) : JVal :=
  if v.isNullish then undefined else member v k

mutual
/-- JavaScript `ToString`, used where a value is a computed property key
(`riskData?.[segment]`). -/
def toKey : JVal → String
  | undefined => "undefined"
  | null => "null"
  | bool b => if b then "true" else "false"
  | num n => toString n
  | str s => s
  | arr xs => joinKeys xs
  | obj _ => "[object Object]"
termination_by structural v => v
/-- The method `Array.prototype.join(',')`: `null` and `undefined` elements print
as the empty string. -/
def joinKeys : List JVal → String
  | [] => ""
  | x :: rest =>
    (match x with
      | undefined => ""
      | null => ""
      | v => toKey v)
    ++ (match rest with
      | [] => ""
      | _ => ",")
    ++ joinKeys rest
termination_by structural xs => xs
end

end JVal

/-! ## Array helpers -/

/-- The method `Array.prototype.slice(start, stop)`: a negative bound counts
from the end, both bounds are clamped to `[0, length]`, `stop` omitted means
`length`. -/
def jsSlice {α : Type} (xs : List α) (start : Int) (stop : Option Int) : List α :=
  let len : Int := xs.length
  let k : Int := if start < 0 then max (len + start) 0 else min start len
  let e : Int :=
    match stop with
    | none => len
    | some s => if s < 0 then max (len + s) 0 else min s len
  (xs.drop k.toNat).take (e - k).toNat

/-! ## Telemetry window and alert log -/

/-- The updater of `setTelemetry` (App.jsx line 59):
`prev => [...prev.slice(-29), sample]`. -/
def telemetryStep (prev : List JVal) (sample : JVal) : List JVal :=
  jsSlice prev (-29) none ++ [sample]

/-- The telemetry window after the samples of `samples` were appended in
completion order to the initial state `[]` (`useState([])`). -/
def telemetryWindow (samples : List JVal) : List JVal :=
  samples.foldl telemetryStep []

/-- The updater of `setAlerts` (App.jsx line 107):
`prev => [alert, ...prev.slice(0, 9)]`. -/
def alertStep (prev : List JVal) (alert : JVal) : List JVal :=
  alert :: jsSlice prev 0 (some 9)

/-- The alert log after the alerts of `received` were accepted in arrival
order, from the initial state `[]`. -/
def alertLog (received : List JVal) : List JVal :=
  received.foldl alertStep []

/-- The handler `socket.onmessage` (App.jsx lines 103-113). `parsed` is the result of
`JSON.parse(event.data)`, `none` when it throws. Returns the next alert log
and whether `fetchAnalytics()` was called. -/
def onMessage (alerts : List JVal) (parsed : Option JVal) : List JVal × Bool :=
  match parsed with
  | none => (alerts, false)
  | some alert => if alert.truthy then (alertStep alerts alert, true) else (alerts, false)

/-! ## Analytics refresh -/

/-- How one `fetch(...)` followed by `.json()` settles: the promise rejects
(network failure), or a response arrives with its `ok` flag and the result
of parsing its body (`none` when `.json()` rejects). -/
inductive FetchOutcome where
  | rejected
  | response (ok : Bool) (body : Option JVal)
  deriving Repr

/-- The five resources fetched by `fetchAnalytics`, in the order of its
`endpoints` array. -/
inductive Resource where
  | summary
  | trends
  | geoJson
  | tickets
  | risk
  deriving Repr, DecidableEq

/-- The five state slots written by `fetchAnalytics`, with their initial
values `null`, `[]`, `null`, `[]`, `null` in `Snapshots.initial`. -/
structure Snapshots where
  analytics : JVal
  trends : JVal
  geoJson : JVal
  tickets : JVal
  riskData : JVal
  deriving Repr

/-- The `useState` initial values of the five slots. -/
def Snapshots.initial : Snapshots :=
  { analytics := .null, trends := .arr [], geoJson := .null, tickets := .arr [], riskData := .null }

/-- The slot a resource is stored in. -/
def Snapshots.slot (s : Snapshots) : Resource → JVal
  | .summary => s.analytics
  | .trends => s.trends
  | .geoJson => s.geoJson
  | .tickets => s.tickets
  | .risk => s.riskData

/-- The value one endpoint contributes to the destructured array
`[sum, trend, geo, tick, risk]` (App.jsx lines 84-86): a rejected fetch is
replaced by `{ ok: false, ... }`, a response that is not `ok` yields `null`,
a body that fails to parse yields `null`, otherwise the parsed body. -/
def settled : FetchOutcome → JVal
  | .rejected => .null
  | .response false _ => .null
  | .response true none => .null
  | .response true (some v) => v

/-- A fetch that did not deliver a parsed body: network rejection, status
that is not a success, or a body that fails to parse. -/
def FetchOutcome.failed : FetchOutcome → Bool
  | .response true (some _) => false
  | _ => true

/-- The statement `if (x) setSlot(x)` of lines 88, 90 and 92. -/
def setIfTruthy (prior x : JVal) : JVal :=
  if x.truthy then x else prior

/-- The statement `if (x) setSlot(Array.isArray(x) ? x : [])` of lines 89
and 91. -/
def setArrayIfTruthy (prior x : JVal) : JVal :=
  if x.truthy then (if x.isArray then x else .arr []) else prior

/-- The function `fetchAnalytics` (App.jsx lines 74-96): the five outcomes are
settled independently, then each truthy result replaces its slot. -/
def fetchAnalytics (s : Snapshots) (o : Resource → FetchOutcome) : Snapshots :=
  { analytics := setIfTruthy s.analytics (settled (o .summary))
    trends := setArrayIfTruthy s.trends (settled (o .trends))
    geoJson := setIfTruthy s.geoJson (settled (o .geoJson))
    tickets := setArrayIfTruthy s.tickets (settled (o .tickets))
    riskData := setIfTruthy s.riskData (settled (o .risk)) }

/-- The outcomes `o` with the outcome of resource `r` replaced by `x`. -/
def withOutcome (o : Resource → FetchOutcome) (r : Resource) (x : FetchOutcome) :
    Resource → FetchOutcome :=
  fun r' => if r' = r then x else o r'

/-! ## Ticket correlation and the actions of an incident row -/

/-- The loop of `tickets.find(t => t.alert_id === alert.id)` over the
elements: the first element satisfying the predicate, `undefined` when there
is none; a read on a nullish element or alert throws. -/
def findLoop : List JVal → JVal → Except JsError JVal
  | [], _ => .ok .undefined
  | t :: rest, alert =>
    match t.getProp "alert_id" with
    | .error e => .error e
    | .ok a =>
      match alert.getProp "id" with
      | .error e => .error e
      | .ok b => if a.strictEq b then .ok t else findLoop rest alert

/-- The expression `tickets.find(t => t.alert_id === alert.id)` (App.jsx line 288).
The `tickets` state is whatever `setTickets` stored; on a value that is not
an array the call throws a `TypeError`. -/
def findTicket (tickets alert : JVal) : Except JsError JVal :=
  match tickets with
  | .arr ts => findLoop ts alert
  | _ => .error .typeError

/-- The predicate of the `find` callback, `t.alert_id === alert.id`, on a
ticket and an alert that are not nullish. -/
def matchesAlert (t alert : JVal) : Bool :=
  (t.member "alert_id").strictEq (alert.member "id")

/-- The buttons an incident row can show. -/
inductive RowAction where
  | createTicket
  | dispatch
  | resolve
  deriving Repr, DecidableEq

/-- The buttons rendered for one alert of the incident log (App.jsx lines
321-369): `!ticket ? <Create ...> : ticket.status !== 'Resolved' &&
(<Dispatch/> <Resolve/>)`. -/
def rowActions (tickets alert : JVal) : Except JsError (List RowAction) :=
  match findTicket tickets alert with
  | .error e => .error e
  | .ok ticket =>
    if !ticket.truthy then .ok [.createTicket]
    else
      match ticket.getProp "status" with
      | .error e => .error e
      | .ok st => if !(st.strictEq (.str "Resolved")) then .ok [.dispatch, .resolve] else .ok []

/-- The requests the row handlers send to the ticket backend. -/
inductive Request where
  | postTicket (alertId : JVal) (notes : String)
  | patchTicket (ticketId : JVal) (status : String)
  | listTickets
  deriving Repr

/-- What a click handler did: the requests it issued, in order, the ticket
snapshot after it, and whether its promise rejected. -/
structure HandlerResult where
  requests : List Request
  tickets : JVal
  threw : Bool
  deriving Repr

/-- The statement pair `const freshTickets = await (await
fetch('/api/v1/maintenance/')).json(); setTickets(freshTickets)`, after the
requests `sent`. The `ok` flag of the response is not consulted. -/
def refetchTickets (sent : List Request) (tickets : JVal) (get : FetchOutcome) : HandlerResult :=
  match get with
  | .rejected => { requests := sent ++ [.listTickets], tickets := tickets, threw := true }
  | .response _ none => { requests := sent ++ [.listTickets], tickets := tickets, threw := true }
  | .response _ (some v) => { requests := sent ++ [.listTickets], tickets := v, threw := false }

/-- The `onClick` of "Create Maintenance Ticket" (App.jsx lines 323-333), for
an alert that is not nullish. -/
def createHandler (tickets alert : JVal) (post get : FetchOutcome) : HandlerResult :=
  let req := Request.postTicket (alert.getPropOpt "id") "Automated ticket from dashboard"
  match post with
  | .rejected => { requests := [req], tickets := tickets, threw := true }
  | .response false _ => { requests := [req], tickets := tickets, threw := false }
  | .response true _ => refetchTickets [req] tickets get

/-- The `onClick` of "Dispatch" (`status = 'In Progress'`, lines 341-349) and
of "Resolve" (`status = 'Resolved'`, lines 355-363), for the correlated
ticket of the row. The response of the PATCH is awaited and not inspected. -/
def transitionHandler (tickets ticket : JVal) (status : String) (patch get : FetchOutcome) :
    HandlerResult :=
  let req := Request.patchTicket (ticket.getPropOpt "id") status
  match patch with
  | .rejected => { requests := [req], tickets := tickets, threw := true }
  | .response _ _ => refetchTickets [req] tickets get

/-- The handler result of an event that ran no handler. -/
def HandlerResult.idle (tickets : JVal) : HandlerResult :=
  { requests := [], tickets := tickets, threw := false }

/-- A click on button `a` in the row of `alert`. A button that is rendered
runs its `onClick`; a button that is not rendered does not exist in the
page, so no handler runs. -/
def clickRow (tickets alert : JVal) (a : RowAction) (first get : FetchOutcome) :
    Except JsError HandlerResult :=
  match rowActions tickets alert with
  | .error e => .error e
  | .ok acts =>
    match findTicket tickets alert with
    | .error e => .error e
    | .ok ticket =>
      if a ∈ acts then
        match a with
        | .createTicket => .ok (createHandler tickets alert first get)
        | .dispatch => .ok (transitionHandler tickets ticket "In Progress" first get)
        | .resolve => .ok (transitionHandler tickets ticket "Resolved" first get)
      else .ok (HandlerResult.idle tickets)

/-! ## Map projection -/

/-- Splitting a list of characters on a separator character, the way
`String.prototype.split` does with a one-character separator: the empty
input yields one empty token. -/
def splitChars (sep : Char) : List Char → List (List Char)
  | [] => [[]]
  | c :: cs =>
    if c = sep then [] :: splitChars sep cs
    else
      match splitChars sep cs with
      | [] => [[c]]
      | t :: ts => (c :: t) :: ts

/-- The call `loc.split('-')`. -/
def splitHyphen (loc : String) : List String :=
  (splitChars '-' loc.data).map String.mk

/-- The expression `typeof loc === 'string' && loc.split('-').includes(id)` (App.jsx
line 414). `includes` compares with SameValueZero, and every token is a
string, so only a string `id` can be found. -/
def isLeakingNode (loc id : JVal) : Bool :=
  match loc, id with
  | .str l, .str i => decide (i ∈ splitHyphen l)
  | _, _ => false

/-- The expression `alerts[0]?.location` (App.jsx lines 413 and 432). -/
def currentLocation (alerts : List JVal) : JVal :=
  (JVal.index alerts 0).getPropOpt "location"

/-- The expression `riskData?.[segment]` followed by the colour choice of line 434:
`risk?.status === 'Critical' ? '#ef4444' : risk?.status === 'Warning' ?
'#f97316' : '#10b981'`. -/
def riskColor (riskData segment : JVal) : String :=
  let risk := riskData.getPropOpt segment.toKey
  if (risk.getPropOpt "status").strictEq (.str "Critical") then "#ef4444"
  else if (risk.getPropOpt "status").strictEq (.str "Warning") then "#f97316"
  else "#10b981"

/-- The `pathOptions` of a `Polyline` without the constant `opacity: 0.8`;
`dashArray` is `none` for `null`. -/
structure PathOptions where
  color : String
  weight : Nat
  dashArray : Option String
  deriving Repr, DecidableEq

/-- The `pathOptions` object of lines 440-445. -/
def pathOptions (viewMode : String) (isLeakingSegment : Bool) (riskColor : String) :
    PathOptions :=
  { color := if viewMode = "live" then (if isLeakingSegment then "#ef4444" else "#3b82f6")
      else riskColor
    weight := if viewMode = "live" ∧ isLeakingSegment = true then 10 else 6
    dashArray := if viewMode = "live" ∧ isLeakingSegment = true then some "10, 15" else none }

/-- What the map shows for one feature: a `Marker` with the status text of its
popup, or a `Polyline` with its path options, the alert flag and the status
text of its popup. Coordinates are handed to the map widget unchanged and
are not part of the render state. -/
inductive Rendered where
  | marker (id : JVal) (status : String)
  | polyline (segment : JVal) (alerted : Bool) (opts : PathOptions) (status : String)
  deriving Repr

/-- Whether `coordinates.map(c => [c[1], c[0]])` (line 439) evaluates without
a `TypeError`: the receiver must be an array and no element may be nullish. -/
def lineCoordsOk : JVal → Bool
  | .arr cs => cs.all (fun c => !c.isNullish)
  | _ => false

/-- The callback of `geoJson.features.map((f, i) => ...)` (App.jsx lines 409-457):
`some` render state for a `Point` or a `LineString`, `none` for the
`return null` of any other geometry type, an error where the JavaScript
throws. -/
def renderFeature (alerts : List JVal) (riskData : JVal) (viewMode : String) (f : JVal) :
    Except JsError (Option Rendered) :=
  match f.getProp "geometry" with
  | .error e => .error e
  | .ok geometry =>
    match geometry.getProp "type" with
    | .error e => .error e
    | .ok ty =>
      if ty.strictEq (.str "Point") then
        let id := (f.getPropOpt "properties").getPropOpt "id"
        let loc := currentLocation alerts
        if (geometry.getPropOpt "coordinates").isNullish then .error .typeError
        else .ok (some (.marker id (if isLeakingNode loc id then "ALERT" else "Normal")))
      else if ty.strictEq (.str "LineString") then
        let segment := (f.getPropOpt "properties").getPropOpt "segment"
        let isLeakingSegment := (currentLocation alerts).strictEq segment
        let color := riskColor riskData segment
        if lineCoordsOk (geometry.getPropOpt "coordinates") then
          .ok (some (.polyline segment isLeakingSegment
            (pathOptions viewMode isLeakingSegment color)
            (if isLeakingSegment then "LEAK DETECTED" else "Normal")))
        else .error .typeError
      else .ok none

/-- The `map` over the features, in order; the `null` results render nothing. -/
def renderAll (alerts : List JVal) (riskData : JVal) (viewMode : String) :
    List JVal → Except JsError (List Rendered)
  | [] => .ok []
  | f :: rest =>
    match renderFeature alerts riskData viewMode f with
    | .error e => .error e
    | .ok r =>
      match renderAll alerts riskData viewMode rest with
      | .error e => .error e
      | .ok rs =>
        match r with
        | some x => .ok (x :: rs)
        | none => .ok rs

/-- The map layer `geoJson && geoJson.features && (... geoJson.features.map ...)`
(App.jsx lines 403-459): nothing when `geoJson` or its `features` is falsy, a
`TypeError` when `features` is truthy and not an array. -/
def project (geoJson : JVal) (alerts : List JVal) (riskData : JVal) (viewMode : String) :
    Except JsError (List Rendered) :=
  if !geoJson.truthy then .ok []
  else if !(geoJson.getPropOpt "features").truthy then .ok []
  else
    match geoJson.getPropOpt "features" with
    | .arr fs => renderAll alerts riskData viewMode fs
    | _ => .error .typeError

/-! ## Telemetry sampler -/

/-- The two library functions the sampler calls on dates, which depend on
the host: `parseDate` is what `new Date(text)` yields for a string, in
milliseconds since the epoch, `none` for an Invalid Date; `formatTime` is
`toLocaleTimeString([], { hour12: false, minute: '2-digit', second:
'2-digit' })`. -/
structure Env where
  parseDate : String → Option Int
  formatTime : Int → String

/-- The constructor call `new Date(v)` followed by the test `!isNaN(parsed)`: the
time value, `none` when the date is invalid. A number is its own time value
within the range of `Date`; `null`, `false` and `true` convert to the numbers
0, 0 and 1; `undefined` converts to `NaN`; a string, and the string an array
or object converts to, is parsed. -/
def newDate (env : Env) : JVal → Option Int
  | .undefined => none
  | .null => some 0
  | .bool b => some (if b then 1 else 0)
  | .num n => if n.natAbs ≤ 8640000000000000 then some n else none
  | .str s => env.parseDate s
  | v => env.parseDate v.toKey

/-- The index properties `'0', '1', ...` of the elements `xs`, from index `i`. -/
def indexedProps : Nat → List JVal → List (String × JVal)
  | _, [] => []
  | i, x :: xs => (toString i, x) :: indexedProps (i + 1) xs

/-- The own enumerable properties copied by the spread `{...data}`: the
properties of an object, the index properties of an array or of a string
(one per character), none for the other primitives. -/
def ownProps : JVal → List (String × JVal)
  | .obj kvs => kvs
  | .arr xs => indexedProps 0 xs
  | .str s => indexedProps 0 (s.data.map (fun c => JVal.str (String.singleton c)))
  | _ => []

/-- Writing property `k` in a property list: an existing property keeps its
place and takes the new value, a new one is added at the end. -/
def setKey (k : String) (v : JVal) : List (String × JVal) → List (String × JVal)
  | [] => [(k, v)]
  | (k', v') :: rest => if k' = k then (k, v) :: rest else (k', v') :: setKey k v rest

/-- The operator `a || b`. -/
def jsOr (a b : JVal) : JVal :=
  if a.truthy then a else b

/-- The timestamp chosen by lines 53-57: `let timestamp = new Date(); if
(data.timestamp) { const parsed = new Date(data.timestamp); if
(!isNaN(parsed)) timestamp = parsed; }`, where `now` is the local clock. -/
def sampleInstant (env : Env) (now : Int) (ts : JVal) : Int :=
  if ts.truthy then
    match newDate env ts with
    | some t => t
    | none => now
  else now

/-- The object `{ ...data, time: timestamp.toLocaleTimeString(...) }` of lines 59-62. -/
def makeSample (env : Env) (now : Int) (data : JVal) : JVal :=
  .obj (setKey "time" (.str (env.formatTime (sampleInstant env now (data.member "timestamp"))))
    (ownProps data))

/-- The object given to `setStats` (lines 63-67). -/
def makeStats (data : JVal) : JVal :=
  .obj [("pressure", jsOr (data.member "pressure") (.num 0)),
        ("flow", jsOr (data.member "flow_rate") (.num 0)),
        ("mode", jsOr (data.member "mode") (.str "normal"))]

/-! ## The component state and its events -/

/-- The `useState` cells of `Dashboard`. -/
structure Dashboard where
  isLoggedIn : Bool
  telemetry : List JVal
  alerts : List JVal
  currentMode : String
  stats : JVal
  activeTab : String
  snapshots : Snapshots
  viewMode : String
  deriving Repr

/-- The initial values of the `useState` calls (App.jsx lines 25-41);
`token` tells whether `localStorage` holds a token. -/
def Dashboard.initial (token : Bool) : Dashboard :=
  { isLoggedIn := token
    telemetry := []
    alerts := []
    currentMode := "normal"
    stats := .obj [("pressure", .num 5), ("flow", .num 100), ("severity", .str "Minor"),
      ("score", .num 0)]
    activeTab := "dashboard"
    snapshots := Snapshots.initial
    viewMode := "live" }

/-- The body of the `try` block of the poll callback (App.jsx lines 49-67), once
the fetch has settled as `o` and the local clock reads `now`. -/
def tickBody (env : Env) (s : Dashboard) (now : Int) (o : FetchOutcome) :
    Except JsError Dashboard :=
  match o with
  | .rejected => .error .typeError
  | .response false _ => .error .error
  | .response true none => .error .syntaxError
  | .response true (some data) =>
    match data.getProp "timestamp" with
    | .error e => .error e
    | .ok _ =>
      .ok { s with
        telemetry := telemetryStep s.telemetry (makeSample env now data)
        stats := makeStats data }

/-- The poll callback (App.jsx lines 47-71): the `catch` logs the exception
and the state stays as it was. -/
def tick (env : Env) (s : Dashboard) (now : Int) (o : FetchOutcome) : Dashboard :=
  match tickBody env s now o with
  | .ok s' => s'
  | .error _ => s

/-- The function `changeMode` (App.jsx lines 141-144) once the POST has settled:
`await fetch(...)` throws when the request is rejected, so `setCurrentMode`
is reached only with a response, whose status is not read. -/
def changeMode (s : Dashboard) (mode : String) (o : FetchOutcome) : Dashboard :=
  match o with
  | .rejected => s
  | .response _ _ => { s with currentMode := mode }

/-- The state while the POST of `changeMode` is in flight: no setter precedes
the `await`. -/
def changeModeIssued (s : Dashboard) (_mode : String) : Dashboard := s

/-- Every event that reaches a state setter of `Dashboard`. A row click names
the row by its index in the alert log. -/
inductive Event where
  | tick (now : Int) (o : FetchOutcome)
  | refresh (o : Resource → FetchOutcome)
  | message (parsed : Option JVal)
  | rowClick (i : Nat) (a : RowAction) (first get : FetchOutcome)
  | clickLive
  | clickRisk
  | clickDashboardTab
  | clickReportsTab
  | changeMode (mode : String) (o : FetchOutcome)
  | login
  | logout

/-- The state after one event. Buttons are taken as clickable in every state,
which can only add reachable states. -/
def step (env : Env) (s : Dashboard) : Event → Dashboard
  | .tick now o => tick env s now o
  | .refresh o => { s with snapshots := fetchAnalytics s.snapshots o }
  | .message parsed => { s with alerts := (onMessage s.alerts parsed).1 }
  | .rowClick i a first get =>
    if i < s.alerts.length then
      match clickRow s.snapshots.tickets (JVal.index s.alerts i) a first get with
      | .ok r => { s with snapshots := { s.snapshots with tickets := r.tickets } }
      | .error _ => s
    else s
  | .clickLive => { s with viewMode := "live" }
  | .clickRisk => { s with viewMode := "risk" }
  | .clickDashboardTab => { s with activeTab := "dashboard" }
  | .clickReportsTab => { s with activeTab := "reports" }
  | .changeMode mode o => changeMode s mode o
  | .login => { s with isLoggedIn := true }
  | .logout => { s with isLoggedIn := false }

/-- The state after a sequence of events. -/
def run (env : Env) (s : Dashboard) (events : List Event) : Dashboard :=
  events.foldl (step env) s

/-! ## Topology features -/

/-- The value `f.geometry.type` of a feature that has a geometry. -/
def geometryType (f : JVal) : JVal :=
  (f.getPropOpt "geometry").getPropOpt "type"

/-- Whether the geometry type of a feature is `Point` or `LineString`. -/
def isPointOrLine (f : JVal) : Bool :=
  (geometryType f).strictEq (.str "Point") || (geometryType f).strictEq (.str "LineString")

/-- A feature in the shape of the topology interface
`{geometry: {type, coordinates}, properties}`: it has a geometry, a `Point`
has coordinates, and a `LineString` has an array of coordinates without
`null` entries. Nothing is asked of a feature of another geometry type. -/
def featureShaped (f : JVal) : Bool :=
  !f.isNullish && !(f.getPropOpt "geometry").isNullish &&
    (if (geometryType f).strictEq (.str "Point") then
      !((f.getPropOpt "geometry").getPropOpt "coordinates").isNullish
    else if (geometryType f).strictEq (.str "LineString") then
      lineCoordsOk ((f.getPropOpt "geometry").getPropOpt "coordinates")
    else true)

/-! ## Session effect: poll timer and push channel -/

/-- The life of one `WebSocket`: connecting or open, closing after `close()`,
closed once its close event was delivered. -/
inductive SocketState where
  | active
  | closing
  | closed
  deriving Repr, DecidableEq

/-- The resources held by the effect of lines 45-130: the login flag, whether
`localStorage` holds a token, whether the `setInterval` timer of the current
effect run is active, every socket created so far in creation order,
`ws.current` as an index into them, and the number of pending
`setTimeout(connectWS, 3000)` timers. -/
structure Engine where
  isLoggedIn : Bool
  token : Bool
  pollTimer : Bool
  sockets : List SocketState
  wsCurrent : Option Nat
  reconnectTimers : Nat
  deriving Repr, DecidableEq

/-- The engine before the first effect run; `isLoggedIn` starts as
`!!localStorage.getItem('token')`. -/
def Engine.initial (token : Bool) : Engine :=
  { isLoggedIn := token, token := token, pollTimer := false, sockets := [],
    wsCurrent := none, reconnectTimers := 0 }

/-- The function `connectWS` (App.jsx lines 99-120): a new socket is created and
stored in `ws.current`. -/
def connectWS (e : Engine) : Engine :=
  { e with sockets := e.sockets ++ [.active], wsCurrent := some e.sockets.length }

/-- The effect body (App.jsx lines 45-124): `setInterval`, then `connectWS()`. It
does not read `isLoggedIn`. -/
def effectBody (e : Engine) : Engine :=
  connectWS { e with pollTimer := true }

/-- The call `socket.close()` on socket `i`: an active socket starts closing, a
closing or closed one is left as it is. -/
def closeCall : List SocketState → Nat → List SocketState
  | [], _ => []
  | st :: rest, 0 => (if st = .active then .closing else st) :: rest
  | st :: rest, i + 1 => st :: closeCall rest i

/-- The effect cleanup, the stop of the session (App.jsx lines 126-129):
`clearInterval(interval); if (ws.current) ws.current.close();`. -/
def effectCleanup (e : Engine) : Engine :=
  { e with
    pollTimer := false
    sockets :=
      match e.wsCurrent with
      | some i => closeCall e.sockets i
      | none => e.sockets }

/-- The state of socket `i`, `closed` for a socket that was never created. -/
def socketAt : List SocketState → Nat → SocketState
  | [], _ => .closed
  | st :: _, 0 => st
  | _ :: rest, i + 1 => socketAt rest i

/-- Marking socket `i` closed. -/
def markClosed : List SocketState → Nat → List SocketState
  | [], _ => []
  | _ :: rest, 0 => .closed :: rest
  | st :: rest, i + 1 => st :: markClosed rest i

/-- The close event of socket `i` is delivered (the server dropped it, or
`close()` completed): `socket.onclose` runs `setTimeout(connectWS, 3000)`
(App.jsx lines 115-117), whatever caused the close. -/
def closeEvent (e : Engine) (i : Nat) : Engine :=
  if socketAt e.sockets i = .closed then e
  else { e with sockets := markClosed e.sockets i, reconnectTimers := e.reconnectTimers + 1 }

/-- A pending reconnect timer fires and runs `connectWS`. -/
def reconnectFires (e : Engine) : Engine :=
  if e.reconnectTimers = 0 then e
  else connectWS { e with reconnectTimers := e.reconnectTimers - 1 }

/-- The function `handleLogout` (App.jsx lines 132-135): the token is removed and
`setIsLoggedIn(false)`; when the flag changes React runs the cleanup of the
effect and then the effect body again (dependency list `[isLoggedIn]`). -/
def logout (e : Engine) : Engine :=
  if e.isLoggedIn then effectBody (effectCleanup { e with token := false, isLoggedIn := false })
  else { e with token := false }

/-- A successful login: `Login` stores the token and `onLogin` runs
`setIsLoggedIn(true)`; when the flag changes the effect is cleaned up and run
again. -/
def login (e : Engine) : Engine :=
  if e.isLoggedIn then { e with token := true }
  else effectBody (effectCleanup { e with token := true, isLoggedIn := true })

/-- Whether the engine runs: the poll timer is active, or a socket is
connecting or open, or a reconnect is scheduled. -/
def Engine.running (e : Engine) : Bool :=
  e.pollTimer || e.sockets.any (fun st => decide (st = .active)) || decide (0 < e.reconnectTimers)

/-! ## Login form -/

/-- The `useState` cells of `Login` that `handleSubmit` writes, the token in
`localStorage`, the number of `onLogin()` calls and the number of login
requests sent. -/
structure LoginState where
  error : JVal
  loading : Bool
  token : Option String
  loginSignals : Nat
  requests : Nat
  deriving Repr

/-- The state of a fresh `Login` form. -/
def LoginState.initial : LoginState :=
  { error := .str "", loading := false, token := none, loginSignals := 0, requests := 0 }

/-- The `try` block of `handleSubmit` (Login.jsx lines 16-32) after
`setLoading(true); setError('')`, once the POST has settled as `o`. The body
is parsed before the status is read. -/
def submitBody (s : LoginState) (o : FetchOutcome) : Except JsError LoginState :=
  match o with
  | .rejected => .error .typeError
  | .response _ none => .error .syntaxError
  | .response true (some data) =>
    match data.getProp "access_token" with
    | .error e => .error e
    | .ok tok => .ok { s with token := some tok.toKey, loginSignals := s.loginSignals + 1 }
  | .response false (some data) =>
    match data.getProp "detail" with
    | .error e => .error e
    | .ok detail => .ok { s with error := jsOr detail (.str "Authentication failed") }

/-- The function `handleSubmit` (Login.jsx lines 10-38): one POST; the `catch` sets
the error `Server connection failed`; the `finally` clears `loading`. -/
def handleSubmit (s : LoginState) (o : FetchOutcome) : LoginState :=
  let started := { s with loading := true, error := .str "", requests := s.requests + 1 }
  match submitBody started o with
  | .ok s' => { s' with loading := false }
  | .error _ => { started with error := .str "Server connection failed", loading := false }

/-! ## Helper lemmas -/

theorem jsSlice_last29 {α : Type} (xs : List α) :
    jsSlice xs (-29) none = xs.drop (xs.length - 29) := by
  unfold jsSlice
  simp only
  have hk : (if (-29 : Int) < 0 then max ((xs.length : Int) + -29) 0
      else min (-29) (xs.length : Int)).toNat = xs.length - 29 := by
    rw [if_pos (by decide)]
    omega
  rw [hk]
  apply List.take_of_length_le
  rw [List.length_drop]
  split <;> omega

theorem jsSlice_first9 {α : Type} (xs : List α) :
    jsSlice xs 0 (some 9) = xs.take 9 := by
  unfold jsSlice
  simp only
  have hk : (if (0 : Int) < 0 then max ((xs.length : Int) + 0) 0
      else min 0 (xs.length : Int)).toNat = 0 := by
    rw [if_neg (by decide)]
    omega
  rw [hk, List.drop_zero]
  have h0 : (if (0 : Int) < 0 then max ((xs.length : Int) + 0) 0
      else min 0 (xs.length : Int)) = 0 := by
    rw [if_neg (by decide)]
    omega
  rw [h0, if_neg (by decide)]
  by_cases h : xs.length ≤ 9
  · rw [List.take_of_length_le (by omega), List.take_of_length_le h]
  · have : (min (9 : Int) (xs.length : Int) - 0).toNat = 9 := by omega
    rw [this]

theorem telemetryWindow_snoc (samples : List JVal) (x : JVal) :
    telemetryWindow (samples ++ [x]) = telemetryStep (telemetryWindow samples) x := by
  simp [telemetryWindow, List.foldl_append]

theorem alertLog_snoc (received : List JVal) (x : JVal) :
    alertLog (received ++ [x]) = alertStep (alertLog received) x := by
  simp [alertLog, List.foldl_append]

theorem telemetryWindow_eq (samples : List JVal) :
    telemetryWindow samples = samples.drop (samples.length - 30) := by
  induction samples using List.reverseRecOn with
  | nil => rfl
  | append_singleton xs x ih =>
    rw [telemetryWindow_snoc, ih, telemetryStep, jsSlice_last29, List.drop_drop,
      List.length_drop, List.length_append, List.length_singleton]
    have hle : xs.length + 1 - 30 ≤ xs.length := by omega
    rw [List.drop_append_of_le_length hle]
    congr 2
    omega

theorem alertLog_eq (received : List JVal) :
    alertLog received = received.reverse.take 10 := by
  induction received using List.reverseRecOn with
  | nil => rfl
  | append_singleton xs x ih =>
    rw [alertLog_snoc, ih, alertStep, jsSlice_first9, List.take_take, List.reverse_append]
    simp

theorem settled_of_failed (x : FetchOutcome) (h : x.failed = true) : settled x = .null := by
  cases x with
  | rejected => rfl
  | response ok body =>
    cases ok <;> cases body <;> simp_all [FetchOutcome.failed, settled]

/-- The rule one slot follows in `fetchAnalytics`: the array guard for the
trends and tickets slots, the plain truthiness guard for the other three. -/
theorem fetchAnalytics_slot (s : Snapshots) (o : Resource → FetchOutcome) (r : Resource) :
    (fetchAnalytics s o).slot r =
      if r = .trends ∨ r = .tickets then setArrayIfTruthy (s.slot r) (settled (o r))
      else setIfTruthy (s.slot r) (settled (o r)) := by
  cases r <;> simp [fetchAnalytics, Snapshots.slot]

theorem getProp_of_not_nullish (v : JVal) (k : String) (h : v.isNullish = false) :
    v.getProp k = .ok (v.member k) := by
  simp [JVal.getProp, h]

theorem getPropOpt_of_not_nullish (v : JVal) (k : String) (h : v.isNullish = false) :
    v.getPropOpt k = v.member k := by
  simp [JVal.getPropOpt, h]

theorem not_nullish_of_truthy (v : JVal) (h : v.truthy = true) : v.isNullish = false := by
  cases v <;> simp_all [JVal.truthy, JVal.isNullish]

theorem strictEq_str (v : JVal) (s : String) : v.strictEq (.str s) = true ↔ v = .str s := by
  cases v <;> simp [JVal.strictEq]

theorem findLoop_eq_find (ts : List JVal) (alert : JVal)
    (hts : ∀ t ∈ ts, t.isNullish = false) (ha : alert.isNullish = false) :
    findLoop ts alert = .ok ((ts.find? (fun t => matchesAlert t alert)).getD .undefined) := by
  induction ts with
  | nil => rfl
  | cons t rest ih =>
    have ht : t.isNullish = false := hts t (List.mem_cons_self _ _)
    have hrest : ∀ u ∈ rest, u.isNullish = false :=
      fun u hu => hts u (List.mem_cons_of_mem _ hu)
    rw [findLoop, getProp_of_not_nullish t _ ht, getProp_of_not_nullish alert _ ha]
    by_cases hm : matchesAlert t alert = true
    · have hm' : (t.member "alert_id").strictEq (alert.member "id") = true := hm
      simp [hm', List.find?_cons, hm]
    · have hm' : (t.member "alert_id").strictEq (alert.member "id") = false := by
        simpa [matchesAlert] using hm
      simp only [hm', Bool.false_eq_true, if_false]
      rw [ih hrest, List.find?_cons]
      simp [hm]

theorem find_getD_not_nullish (ts : List JVal) (p : JVal → Bool)
    (hts : ∀ t ∈ ts, t.isNullish = false) (h : ∃ t ∈ ts, p t = true) :
    ((ts.find? p).getD .undefined).isNullish = false := by
  cases hf : ts.find? p with
  | none =>
    obtain ⟨t, ht, hp⟩ := h
    have := List.find?_eq_none.mp hf t ht
    simp [hp] at this
  | some t => exact hts t (List.mem_of_find?_eq_some hf)

theorem rowActions_of_find (ts : List JVal) (alert : JVal)
    (hts : ∀ t ∈ ts, t.truthy = true) (ha : alert.isNullish = false) :
    (findTicket (.arr ts) alert = .ok .undefined ∧
      rowActions (.arr ts) alert = .ok [.createTicket] ∧
      ∀ t ∈ ts, matchesAlert t alert = false) ∨
    (∃ t ∈ ts, matchesAlert t alert = true ∧ t.truthy = true ∧
      findTicket (.arr ts) alert = .ok t ∧
      rowActions (.arr ts) alert =
        .ok (if (t.member "status").strictEq (.str "Resolved") then [] else [.dispatch, .resolve])) := by
  have hnn : ∀ t ∈ ts, t.isNullish = false := fun t ht => not_nullish_of_truthy t (hts t ht)
  have hfind : findTicket (.arr ts) alert
      = .ok ((ts.find? (fun t => matchesAlert t alert)).getD .undefined) :=
    findLoop_eq_find ts alert hnn ha
  cases hf : ts.find? (fun t => matchesAlert t alert) with
  | none =>
    left
    rw [hf] at hfind
    refine ⟨hfind, ?_, ?_⟩
    · simp [rowActions, hfind, JVal.truthy]
    · intro t ht
      have := List.find?_eq_none.mp hf t ht
      simpa using this
  | some t =>
    right
    rw [hf] at hfind
    have hmem : t ∈ ts := List.mem_of_find?_eq_some hf
    have hm : matchesAlert t alert = true := by
      have := List.find?_some hf
      simpa using this
    refine ⟨t, hmem, hm, hts t hmem, hfind, ?_⟩
    have hfind' : findTicket (.arr ts) alert = .ok t := hfind
    simp only [rowActions, hfind', hts t hmem, getProp_of_not_nullish t _ (hnn t hmem)]
    cases (t.member "status").strictEq (.str "Resolved") <;> simp

theorem renderFeature_lineString (alerts : List JVal) (riskData : JVal) (viewMode : String)
    (f geometry segment : JVal)
    (hg : f.getProp "geometry" = .ok geometry)
    (ht : geometry.getProp "type" = .ok (.str "LineString"))
    (hs : (f.getPropOpt "properties").getPropOpt "segment" = segment)
    (hc : lineCoordsOk (geometry.getPropOpt "coordinates") = true) :
    renderFeature alerts riskData viewMode f =
      .ok (some (.polyline segment ((currentLocation alerts).strictEq segment)
        (pathOptions viewMode ((currentLocation alerts).strictEq segment)
          (riskColor riskData segment))
        (if (currentLocation alerts).strictEq segment then "LEAK DETECTED" else "Normal"))) := by
  have hp : (JVal.str "LineString").strictEq (.str "Point") = false := by decide
  have hl : (JVal.str "LineString").strictEq (.str "LineString") = true := by decide
  simp only [renderFeature, hg, ht, hp, hl, hs, hc, Bool.false_eq_true, if_false, if_true]

theorem splitChars_ne_nil (sep : Char) (cs : List Char) : splitChars sep cs ≠ [] := by
  cases cs with
  | nil => simp [splitChars]
  | cons c cs =>
    unfold splitChars
    split
    · simp
    · split <;> simp

theorem splitChars_intercalate (sep : Char) (cs : List Char) :
    List.intercalate [sep] (splitChars sep cs) = cs := by
  induction cs with
  | nil => simp [splitChars, List.intercalate]
  | cons c cs ih =>
    unfold splitChars
    by_cases h : c = sep
    · rw [if_pos h]
      cases hs : splitChars sep cs with
      | nil => exact absurd hs (splitChars_ne_nil sep cs)
      | cons t ts =>
        rw [hs] at ih
        simp [List.intercalate] at ih ⊢
        simp [h, ih]
    · rw [if_neg h]
      cases hs : splitChars sep cs with
      | nil => exact absurd hs (splitChars_ne_nil sep cs)
      | cons t ts =>
        rw [hs] at ih
        simp [List.intercalate] at ih ⊢
        cases ts with
        | nil => simpa using ih
        | cons u us => simpa using ih

theorem splitChars_no_sep (sep : Char) (cs : List Char) :
    ∀ t ∈ splitChars sep cs, sep ∉ t := by
  induction cs with
  | nil => simp [splitChars]
  | cons c cs ih =>
    unfold splitChars
    by_cases h : c = sep
    · rw [if_pos h]
      intro t ht
      rcases List.mem_cons.mp ht with rfl | ht
      · simp
      · exact ih t ht
    · rw [if_neg h]
      cases hs : splitChars sep cs with
      | nil => exact absurd hs (splitChars_ne_nil sep cs)
      | cons u us =>
        rw [hs] at ih
        intro t ht
        rcases List.mem_cons.mp ht with rfl | ht
        · intro hmem
          rcases List.mem_cons.mp hmem with h1 | h1
          · exact h h1.symm
          · exact ih u (List.mem_cons_self _ _) h1
        · exact ih t (List.mem_cons_of_mem _ ht)

theorem isLeakingNode_iff (loc id : JVal) :
    isLeakingNode loc id = true ↔
      ∃ l i, loc = .str l ∧ id = .str i ∧ i ∈ splitHyphen l := by
  cases loc <;> cases id <;> simp [isLeakingNode]

theorem renderFeature_point (alerts : List JVal) (riskData : JVal) (viewMode : String)
    (f geometry : JVal)
    (hg : f.getProp "geometry" = .ok geometry)
    (ht : geometry.getProp "type" = .ok (.str "Point"))
    (hc : (geometry.getPropOpt "coordinates").isNullish = false) :
    renderFeature alerts riskData viewMode f =
      .ok (some (.marker ((f.getPropOpt "properties").getPropOpt "id")
        (if isLeakingNode (currentLocation alerts) ((f.getPropOpt "properties").getPropOpt "id")
          then "ALERT" else "Normal"))) := by
  have hp : (JVal.str "Point").strictEq (.str "Point") = true := by decide
  simp only [renderFeature, hg, ht, hp, hc, Bool.false_eq_true, if_false, if_true]

theorem renderFeature_shaped (alerts : List JVal) (riskData : JVal) (viewMode : String)
    (f : JVal) (hf : featureShaped f = true) :
    (isPointOrLine f = true ∧ ∃ r, renderFeature alerts riskData viewMode f = .ok (some r)) ∨
    (isPointOrLine f = false ∧ renderFeature alerts riskData viewMode f = .ok none) := by
  simp only [featureShaped, Bool.and_eq_true, Bool.not_eq_true'] at hf
  obtain ⟨⟨hfn, hgn⟩, hrest⟩ := hf
  have hg : f.getProp "geometry" = .ok (f.getPropOpt "geometry") := by
    rw [getProp_of_not_nullish f _ hfn, getPropOpt_of_not_nullish f _ hfn]
  have ht : (f.getPropOpt "geometry").getProp "type" = .ok (geometryType f) := by
    rw [getProp_of_not_nullish _ _ hgn, geometryType, getPropOpt_of_not_nullish _ _ hgn]
  by_cases hp : (geometryType f).strictEq (.str "Point") = true
  · left
    have hty : geometryType f = .str "Point" := (strictEq_str _ _).mp hp
    rw [hty] at ht
    rw [if_pos hp] at hrest
    refine ⟨by simp [isPointOrLine, hp], _,
      renderFeature_point alerts riskData viewMode f _ hg ht (by simpa using hrest)⟩
  · have hp' : (geometryType f).strictEq (.str "Point") = false := by simpa using hp
    rw [if_neg hp] at hrest
    by_cases hl : (geometryType f).strictEq (.str "LineString") = true
    · left
      have hty : geometryType f = .str "LineString" := (strictEq_str _ _).mp hl
      rw [hty] at ht
      rw [if_pos hl] at hrest
      refine ⟨by simp [isPointOrLine, hl], _,
        renderFeature_lineString alerts riskData viewMode f _ _ hg ht rfl hrest⟩
    · right
      have hl' : (geometryType f).strictEq (.str "LineString") = false := by simpa using hl
      refine ⟨by simp [isPointOrLine, hp', hl'], ?_⟩
      simp only [renderFeature, hg, ht, hp', hl', Bool.false_eq_true, if_false]

theorem renderAll_shaped (alerts : List JVal) (riskData : JVal) (viewMode : String)
    (fs : List JVal) (hfs : ∀ f ∈ fs, featureShaped f = true) :
    ∃ rs, renderAll alerts riskData viewMode fs = .ok rs ∧
      List.Forall₂ (fun f r => renderFeature alerts riskData viewMode f = .ok (some r))
        (fs.filter isPointOrLine) rs := by
  induction fs with
  | nil => exact ⟨[], rfl, List.Forall₂.nil⟩
  | cons f rest ih =>
    obtain ⟨rs, hrs, hall⟩ := ih (fun g hg => hfs g (List.mem_cons_of_mem _ hg))
    rcases renderFeature_shaped alerts riskData viewMode f (hfs f (List.mem_cons_self _ _))
      with ⟨hpl, r, hr⟩ | ⟨hpl, hr⟩
    · refine ⟨r :: rs, by simp only [renderAll, hr, hrs], ?_⟩
      rw [List.filter_cons_of_pos hpl]
      exact List.Forall₂.cons hr hall
    · refine ⟨rs, by simp only [renderAll, hr, hrs], ?_⟩
      rw [List.filter_cons_of_neg (by simp [hpl])]
      exact hall

theorem tick_viewMode (env : Env) (s : Dashboard) (now : Int) (o : FetchOutcome) :
    (tick env s now o).viewMode = s.viewMode := by
  unfold tick tickBody
  rcases o with _ | ⟨ok, body⟩
  · rfl
  · cases ok
    · rfl
    · cases body with
      | none => rfl
      | some data =>
        simp only
        cases data.getProp "timestamp" <;> rfl

theorem step_viewMode (env : Env) (s : Dashboard) (ev : Event) :
    (step env s ev).viewMode = s.viewMode ∨ (step env s ev).viewMode = "live" ∨
      (step env s ev).viewMode = "risk" := by
  cases ev with
  | tick now o => left; exact tick_viewMode env s now o
  | refresh o => left; rfl
  | message parsed => left; rfl
  | rowClick i a first get =>
    left
    simp only [step]
    split
    · split <;> rfl
    · rfl
  | clickLive => right; left; rfl
  | clickRisk => right; right; rfl
  | clickDashboardTab => left; rfl
  | clickReportsTab => left; rfl
  | changeMode mode o => left; cases o <;> rfl
  | login => left; rfl
  | logout => left; rfl

theorem run_viewMode (env : Env) (events : List Event) (s : Dashboard)
    (hs : s.viewMode = "live" ∨ s.viewMode = "risk") :
    (run env s events).viewMode = "live" ∨ (run env s events).viewMode = "risk" := by
  induction events generalizing s with
  | nil => exact hs
  | cons ev rest ih =>
    apply ih (step env s ev)
    rcases step_viewMode env s ev with h | h | h
    · rw [h]; exact hs
    · exact Or.inl h
    · exact Or.inr h

theorem tickBody_of_failed (env : Env) (s : Dashboard) (now : Int) (o : FetchOutcome)
    (h : o.failed = true) : ∃ e, tickBody env s now o = .error e := by
  rcases o with _ | ⟨ok, body⟩
  · exact ⟨_, rfl⟩
  · cases ok
    · exact ⟨_, rfl⟩
    · cases body with
      | none => exact ⟨_, rfl⟩
      | some data => simp [FetchOutcome.failed] at h

theorem lookup_setKey_self (k : String) (v : JVal) (kvs : List (String × JVal)) :
    JVal.lookup k (setKey k v kvs) = v := by
  induction kvs with
  | nil => simp [setKey, JVal.lookup]
  | cons p rest ih =>
    obtain ⟨k', v'⟩ := p
    by_cases h : k' = k
    · simp [setKey, JVal.lookup, h]
    · simp [setKey, JVal.lookup, h, ih]

theorem lookup_setKey_other (k k2 : String) (v : JVal) (kvs : List (String × JVal))
    (hne : k2 ≠ k) : JVal.lookup k2 (setKey k v kvs) = JVal.lookup k2 kvs := by
  induction kvs with
  | nil => simp [setKey, JVal.lookup, Ne.symm hne]
  | cons p rest ih =>
    obtain ⟨k', v'⟩ := p
    by_cases h : k' = k
    · subst h
      simp [setKey, JVal.lookup, Ne.symm hne]
    · by_cases h2 : k' = k2
      · subst h2
        simp [setKey, JVal.lookup, h]
      · simp [setKey, JVal.lookup, h, h2, ih]

theorem currentLocation_nil : currentLocation [] = .undefined := rfl

theorem strictEq_undefined (v : JVal) : JVal.undefined.strictEq v = true ↔ v = .undefined := by
  cases v <;> simp [JVal.strictEq]

/-- With an empty alert log a Point shows `Normal`, whatever its id. -/
theorem renderFeature_point_no_alert (riskData : JVal) (viewMode : String) (f geometry : JVal)
    (hg : f.getProp "geometry" = .ok geometry)
    (ht : geometry.getProp "type" = .ok (.str "Point"))
    (hc : (geometry.getPropOpt "coordinates").isNullish = false) :
    renderFeature [] riskData viewMode f =
      .ok (some (.marker ((f.getPropOpt "properties").getPropOpt "id") "Normal")) := by
  rw [renderFeature_point [] riskData viewMode f geometry hg ht hc, currentLocation_nil]
  simp [isLeakingNode]

/-- With an empty alert log, in live mode, a LineString whose `segment`
property is present renders normal. -/
theorem renderFeature_lineString_no_alert (riskData : JVal) (f geometry segment : JVal)
    (hg : f.getProp "geometry" = .ok geometry)
    (ht : geometry.getProp "type" = .ok (.str "LineString"))
    (hs : (f.getPropOpt "properties").getPropOpt "segment" = segment)
    (hc : lineCoordsOk (geometry.getPropOpt "coordinates") = true)
    (hseg : segment ≠ .undefined) :
    renderFeature [] riskData "live" f =
      .ok (some (.polyline segment false
        { color := "#3b82f6", weight := 6, dashArray := none } "Normal")) := by
  have hfalse : JVal.undefined.strictEq segment = false := by
    cases h : JVal.undefined.strictEq segment
    · rfl
    · exact absurd ((strictEq_undefined segment).mp h) hseg
  rw [renderFeature_lineString [] riskData "live" f geometry segment hg ht hs hc,
    currentLocation_nil, hfalse]
  simp [pathOptions]

/-! ## Claims -/

/-- C1: after any sequence of successful samples is appended in completion
order to the empty window with `prev => [...prev.slice(-29), sample]`, the
window has at most 30 elements, exactly `min n 30` of them, and it is the
last `min n 30` samples of the sequence in the same order. -/
theorem telemetry_window_last30 (samples : List JVal) :
    (telemetryWindow samples).length ≤ 30 ∧
    (telemetryWindow samples).length = min samples.length 30 ∧
    telemetryWindow samples = samples.drop (samples.length - min samples.length 30) := by
  have h := telemetryWindow_eq samples
  have hd : samples.length - min samples.length 30 = samples.length - 30 := by omega
  rw [hd, h, List.length_drop]
  refine ⟨by omega, by omega, rfl⟩

/-- C2: after any sequence of accepted alerts is applied in arrival order to
the empty log with `prev => [alert, ...prev.slice(0, 9)]`, the log has at
most 10 elements, exactly `min n 10` of them, and it is the last `min n 10`
alerts in reverse arrival order, the most recent at index 0. -/
theorem alert_log_last10_newest_first (received : List JVal) :
    (alertLog received).length ≤ 10 ∧
    (alertLog received).length = min received.length 10 ∧
    alertLog received =
      (received.drop (received.length - min received.length 10)).reverse ∧
    (∀ a, received.getLast? = some a → (alertLog received).head? = some a) := by
  have h := alertLog_eq received
  have hd : received.length - min received.length 10 = received.length - 10 := by omega
  have hr : (received.drop (received.length - 10)).reverse = received.reverse.take 10 := by
    by_cases hlen : received.length ≤ 10
    · have h0 : received.length - 10 = 0 := by omega
      rw [h0, List.drop_zero, List.take_of_length_le (by simpa using hlen)]
    · rw [List.reverse_drop]
      congr 1
      omega
  rw [hd, hr, h, List.length_take, List.length_reverse]
  refine ⟨by omega, by omega, rfl, ?_⟩
  intro a ha
  rw [List.head?_take, if_neg (by decide), List.head?_reverse, ha]

/-- C3: in `fetchAnalytics`, a resource whose fetch failed (network
rejection, status that is not a success, body that fails to parse) keeps its
slot at the prior value; what a slot receives depends on the outcome of its
own fetch only, so no outcome of another resource changes it; and a resource
that succeeded with a truthy body (an array, for the trends and tickets
slots) holds that fresh body, whatever happened to the failed one. -/
theorem refresh_failure_isolated (s : Snapshots) (o : Resource → FetchOutcome) (r : Resource)
    (hfail : (o r).failed = true) :
    (fetchAnalytics s o).slot r = s.slot r ∧
    (∀ (x : FetchOutcome) (r' : Resource), r' ≠ r →
      (fetchAnalytics s (withOutcome o r x)).slot r' = (fetchAnalytics s o).slot r') ∧
    (∀ (r' : Resource) (v : JVal), r' ≠ r → o r' = .response true (some v) →
      v.truthy = true → ((r' = .trends ∨ r' = .tickets) → v.isArray = true) →
      (fetchAnalytics s o).slot r' = v) := by
  refine ⟨?_, ?_, ?_⟩
  · rw [fetchAnalytics_slot, settled_of_failed _ hfail]
    split <;> simp [setArrayIfTruthy, setIfTruthy, JVal.truthy]
  · intro x r' hne
    rw [fetchAnalytics_slot, fetchAnalytics_slot]
    simp [withOutcome, hne]
  · intro r' v _ hv ht ha
    rw [fetchAnalytics_slot, hv]
    by_cases hr : r' = .trends ∨ r' = .tickets
    · simp [hr, setArrayIfTruthy, settled, ht, ha hr]
    · simp [hr, setIfTruthy, settled, ht]

/-- Witness for C3: the trends fetch is rejected while the prior trends are
`[1]` and the four other fetches succeed; the trends slot keeps `[1]`. -/
theorem refresh_failure_isolated_witness :
    FetchOutcome.failed .rejected = true ∧
    (fetchAnalytics { Snapshots.initial with trends := .arr [.num 1] }
      (fun r => if r = .trends then .rejected
        else .response true (some (.obj [("k", .num 1)])))).slot .trends = .arr [.num 1] :=
  ⟨rfl, (refresh_failure_isolated { Snapshots.initial with trends := .arr [.num 1] }
    (fun r => if r = .trends then .rejected
      else .response true (some (.obj [("k", .num 1)]))) .trends rfl).1⟩

/-- C4 as stated fails: a successful response whose parsed body is the falsy
value `0` does not replace the analytics slot, and a successful response
whose parsed body is an object resets the trends slot to `[]` instead of
storing the object. -/
theorem refresh_success_not_wholesale :
    (fetchAnalytics { Snapshots.initial with analytics := .obj [("summary", .num 7)] }
        (fun _ => .response true (some (.num 0)))).slot .summary
      = .obj [("summary", .num 7)] ∧
    (fetchAnalytics { Snapshots.initial with analytics := .obj [("summary", .num 7)] }
        (fun _ => .response true (some (.num 0)))).slot .summary ≠ .num 0 ∧
    (fetchAnalytics { Snapshots.initial with trends := .arr [.num 1] }
        (fun _ => .response true (some (.obj [("detail", .str "x")])))).slot .trends
      = .arr [] ∧
    (fetchAnalytics { Snapshots.initial with trends := .arr [.num 1] }
        (fun _ => .response true (some (.obj [("detail", .str "x")])))).slot .trends
      ≠ .obj [("detail", .str "x")] := by
  refine ⟨rfl, ?_, rfl, ?_⟩ <;> intro h <;> cases h

/-- C4, amended: when the fetch of a resource succeeds and its body parses to
`v`, the slot is left at its prior value if `v` is falsy; otherwise the
analytics, topology and risk slots become exactly `v`, and the trends and
tickets slots become `v` if `v` is an array and `[]` if it is not. -/
theorem refresh_success_guarded (s : Snapshots) (o : Resource → FetchOutcome) (r : Resource)
    (v : JVal) (hv : o r = .response true (some v)) :
    (fetchAnalytics s o).slot r =
      if v.truthy = true then
        (if r = .trends ∨ r = .tickets then (if v.isArray = true then v else .arr []) else v)
      else s.slot r := by
  rw [fetchAnalytics_slot, hv]
  by_cases hr : r = .trends ∨ r = .tickets <;> by_cases ht : v.truthy = true <;>
    simp [hr, ht, setArrayIfTruthy, setIfTruthy, settled]

/-- Witness for the amended C4: a fresh ticket list replaces the slot. -/
theorem refresh_success_guarded_witness :
    (fetchAnalytics Snapshots.initial
      (fun _ => .response true (some (.arr [.obj [("id", .str "t1")]])))).slot .tickets
      = .arr [.obj [("id", .str "t1")]] :=
  (refresh_success_guarded Snapshots.initial
    (fun _ => .response true (some (.arr [.obj [("id", .str "t1")]]))) .tickets
    (.arr [.obj [("id", .str "t1")]]) rfl).trans rfl

/-- C5: on a ticket list and an alert without nullish entries, the lookup
`tickets.find(t => t.alert_id === alert.id)` returns without throwing; it
returns the first ticket in list order whose `alert_id` is strictly equal to
the alert's `id`, also when later tickets carry the same `alert_id`; and it
returns `undefined` (no ticket) exactly when no ticket of the list has that
`alert_id`. -/
theorem correlation_first_match (ts : List JVal) (alert : JVal)
    (hts : ∀ t ∈ ts, t.isNullish = false) (ha : alert.isNullish = false) :
    (∃ r, findTicket (.arr ts) alert = .ok r ∧
      (r = .undefined ↔ ∀ t ∈ ts, matchesAlert t alert = false)) ∧
    (∀ (before after : List JVal) (t : JVal), ts = before ++ t :: after →
      (∀ u ∈ before, matchesAlert u alert = false) → matchesAlert t alert = true →
      findTicket (.arr ts) alert = .ok t) := by
  have hfind := findLoop_eq_find ts alert hts ha
  refine ⟨⟨_, hfind, ?_⟩, ?_⟩
  · constructor
    · intro hr t ht
      by_contra hm
      have hm' : matchesAlert t alert = true := by simpa using hm
      have hn := find_getD_not_nullish ts (fun t => matchesAlert t alert) hts ⟨t, ht, hm'⟩
      rw [hr] at hn
      simp [JVal.isNullish] at hn
    · intro hall
      have : ts.find? (fun t => matchesAlert t alert) = none := by
        rw [List.find?_eq_none]
        intro t ht
        simp [hall t ht]
      rw [this]
      rfl
  · intro before after t hsplit hbefore hm
    show findLoop ts alert = .ok t
    rw [hfind, hsplit]
    have : (before ++ t :: after).find? (fun t => matchesAlert t alert) = some t := by
      rw [List.find?_append]
      have hb : before.find? (fun t => matchesAlert t alert) = none := by
        rw [List.find?_eq_none]
        intro u hu
        simp [hbefore u hu]
      rw [hb]
      simp [List.find?_cons, hm]
    rw [this]
    rfl

/-- Witness for C5: two tickets carry the alert id `a1`; the lookup returns
the earlier one. -/
theorem correlation_first_match_witness :
    findTicket
      (.arr [.obj [("id", .str "t0"), ("alert_id", .str "a0")],
             .obj [("id", .str "t1"), ("alert_id", .str "a1")],
             .obj [("id", .str "t2"), ("alert_id", .str "a1")]])
      (.obj [("id", .str "a1")])
      = .ok (.obj [("id", .str "t1"), ("alert_id", .str "a1")]) :=
  (correlation_first_match
    [.obj [("id", .str "t0"), ("alert_id", .str "a0")],
     .obj [("id", .str "t1"), ("alert_id", .str "a1")],
     .obj [("id", .str "t2"), ("alert_id", .str "a1")]]
    (.obj [("id", .str "a1")])
    (by intro t ht; simp at ht; rcases ht with rfl | rfl | rfl <;> rfl) rfl).2
    [.obj [("id", .str "t0"), ("alert_id", .str "a0")]]
    [.obj [("id", .str "t2"), ("alert_id", .str "a1")]]
    (.obj [("id", .str "t1"), ("alert_id", .str "a1")]) rfl
    (by intro u hu; simp at hu; subst hu; decide) (by decide)

/-- C6: on a ticket snapshot of truthy entries, the "Create Maintenance
Ticket" button is rendered for an alert if and only if the correlation
lookup finds no ticket, that is if and only if no ticket of the snapshot has
the alert's id; for an alert that has a correlated ticket a create click runs
no handler: no request is sent and the snapshot is unchanged. -/
theorem create_offered_iff_uncorrelated (ts : List JVal) (alert : JVal)
    (hts : ∀ t ∈ ts, t.truthy = true) (ha : alert.isNullish = false) :
    ∃ acts, rowActions (.arr ts) alert = .ok acts ∧
      (RowAction.createTicket ∈ acts ↔ findTicket (.arr ts) alert = .ok .undefined) ∧
      (RowAction.createTicket ∈ acts ↔ ∀ t ∈ ts, matchesAlert t alert = false) ∧
      ((∃ t ∈ ts, matchesAlert t alert = true) → ∀ post get,
        clickRow (.arr ts) alert .createTicket post get
          = .ok { requests := [], tickets := .arr ts, threw := false }) := by
  rcases rowActions_of_find ts alert hts ha with ⟨hf, hr, hall⟩ | ⟨t, ht, hm, htr, hf, hr⟩
  · refine ⟨_, hr, by simp [hf], by simpa using hall, ?_⟩
    rintro ⟨t, ht, hm⟩
    rw [hall t ht] at hm
    cases hm
  · have hne : RowAction.createTicket ∉
        (if (t.member "status").strictEq (.str "Resolved") then []
          else [RowAction.dispatch, RowAction.resolve]) := by
      split <;> simp
    refine ⟨_, hr, ?_, ?_, ?_⟩
    · constructor
      · intro h; exact absurd h hne
      · intro h
        rw [hf] at h
        injection h with h
        rw [h] at htr
        simp [JVal.truthy] at htr
    · constructor
      · intro h; exact absurd h hne
      · intro h
        rw [h t ht] at hm
        cases hm
    · intro _ post get
      simp only [clickRow, hr, hf, if_neg hne, HandlerResult.idle]

/-- Witness for C6: the snapshot holds a ticket for alert `a1`; the create
button is not offered and a create click sends nothing. -/
theorem create_offered_iff_uncorrelated_witness :
    ∃ acts, rowActions (.arr [.obj [("id", .str "t1"), ("alert_id", .str "a1")]])
        (.obj [("id", .str "a1")]) = .ok acts ∧
      (RowAction.createTicket ∈ acts ↔
        findTicket (.arr [.obj [("id", .str "t1"), ("alert_id", .str "a1")]])
          (.obj [("id", .str "a1")]) = .ok .undefined) ∧
      (RowAction.createTicket ∈ acts ↔
        ∀ t ∈ [JVal.obj [("id", .str "t1"), ("alert_id", .str "a1")]],
          matchesAlert t (.obj [("id", .str "a1")]) = false) ∧
      ((∃ t ∈ [JVal.obj [("id", .str "t1"), ("alert_id", .str "a1")]],
          matchesAlert t (.obj [("id", .str "a1")]) = true) → ∀ post get,
        clickRow (.arr [.obj [("id", .str "t1"), ("alert_id", .str "a1")]])
          (.obj [("id", .str "a1")]) .createTicket post get
          = .ok { requests := [],
                  tickets := .arr [.obj [("id", .str "t1"), ("alert_id", .str "a1")]],
                  threw := false }) :=
  create_offered_iff_uncorrelated [.obj [("id", .str "t1"), ("alert_id", .str "a1")]]
    (.obj [("id", .str "a1")])
    (by intro t ht; simp at ht; subst ht; rfl) rfl

/-- C7 as stated fails: for a ticket whose status is `Open` the row offers
both Dispatch and Resolve, and a Resolve click sends the PATCH with status
`Resolved` to the backend; for a ticket already `In Progress` a Dispatch
click sends the PATCH with status `In Progress` again. -/
theorem open_ticket_resolve_reaches_network :
    rowActions (.arr [.obj [("id", .str "t1"), ("alert_id", .str "a1"), ("status", .str "Open")]])
        (.obj [("id", .str "a1")]) = .ok [.dispatch, .resolve] ∧
    (clickRow (.arr [.obj [("id", .str "t1"), ("alert_id", .str "a1"), ("status", .str "Open")]])
        (.obj [("id", .str "a1")]) .resolve
        (.response true (some (.obj [("id", .str "t1"), ("status", .str "Resolved")])))
        (.response true (some (.arr [])))).map (fun r => r.requests)
      = .ok [.patchTicket (.str "t1") "Resolved", .listTickets] ∧
    (clickRow
        (.arr [.obj [("id", .str "t1"), ("alert_id", .str "a1"), ("status", .str "In Progress")]])
        (.obj [("id", .str "a1")]) .dispatch
        (.response true none) (.response true (some (.arr [])))).map (fun r => r.requests)
      = .ok [.patchTicket (.str "t1") "In Progress", .listTickets] := by
  refine ⟨rfl, rfl, rfl⟩

/-- C7, amended: for an alert whose correlated ticket in the snapshot is the
truthy value `t`, a transition request reaches the network only if the
status of `t` is not `Resolved`. When it is `Resolved` the row offers no
action and a click on any of the three buttons sends nothing; when it is
anything else (`Open` and `In Progress` included) the row offers both
Dispatch and Resolve, and the click sends the PATCH with the requested
status. -/
theorem transition_offered_unless_resolved (tickets alert t : JVal)
    (ht : findTicket tickets alert = .ok t) (htr : t.truthy = true) :
    (t.member "status" = .str "Resolved" →
      rowActions tickets alert = .ok [] ∧
      ∀ a patch get, clickRow tickets alert a patch get = .ok (HandlerResult.idle tickets)) ∧
    (t.member "status" ≠ .str "Resolved" →
      rowActions tickets alert = .ok [.dispatch, .resolve] ∧
      ∀ patch get,
        clickRow tickets alert .dispatch patch get
          = .ok (transitionHandler tickets t "In Progress" patch get) ∧
        clickRow tickets alert .resolve patch get
          = .ok (transitionHandler tickets t "Resolved" patch get) ∧
        clickRow tickets alert .createTicket patch get
          = .ok (HandlerResult.idle tickets)) := by
  have hnn : t.isNullish = false := not_nullish_of_truthy t htr
  have hr : rowActions tickets alert =
      .ok (if (t.member "status").strictEq (.str "Resolved") then [] else [.dispatch, .resolve]) := by
    simp only [rowActions, ht, htr, getProp_of_not_nullish t _ hnn]
    cases (t.member "status").strictEq (.str "Resolved") <;> simp
  constructor
  · intro hs
    have hs' : (t.member "status").strictEq (.str "Resolved") = true := (strictEq_str _ _).mpr hs
    rw [hs'] at hr
    refine ⟨by simpa using hr, ?_⟩
    intro a patch get
    simp only [clickRow, hr, ht]
    simp
  · intro hs
    have hs' : (t.member "status").strictEq (.str "Resolved") = false := by
      cases h : (t.member "status").strictEq (.str "Resolved")
      · rfl
      · exact absurd ((strictEq_str _ _).mp h) hs
    rw [hs'] at hr
    refine ⟨by simpa using hr, ?_⟩
    intro patch get
    simp only [clickRow, hr, ht]
    simp

/-- Witness for the amended C7: a ticket `In Progress` offers Dispatch and
Resolve. -/
theorem transition_offered_unless_resolved_witness :
    rowActions
      (.arr [.obj [("id", .str "t1"), ("alert_id", .str "a1"), ("status", .str "In Progress")]])
      (.obj [("id", .str "a1")]) = .ok [.dispatch, .resolve] :=
  ((transition_offered_unless_resolved
    (.arr [.obj [("id", .str "t1"), ("alert_id", .str "a1"), ("status", .str "In Progress")]])
    (.obj [("id", .str "a1")])
    (.obj [("id", .str "t1"), ("alert_id", .str "a1"), ("status", .str "In Progress")])
    rfl rfl).2
    (by simp [JVal.member, JVal.lookup])).1

/-- C8: the row handlers never build a ticket snapshot locally. After a
create accepted by the server, and after a transition whose PATCH got any
response, the snapshot is exactly the parsed body of the following GET of the
ticket list; a create answered with a status that is not a success sends no
GET and leaves the snapshot unchanged; and in every case the snapshot after
a handler is either the one before it or the parsed body of that GET. -/
theorem ticket_snapshot_from_server (tickets alert ticket v : JVal) (status : String)
    (ok okGet : Bool) (body : Option JVal) (first get : FetchOutcome) :
    (createHandler tickets alert (.response true body) (.response okGet (some v))).tickets = v ∧
    (transitionHandler tickets ticket status (.response ok body)
      (.response okGet (some v))).tickets = v ∧
    ((createHandler tickets alert (.response false body) get).tickets = tickets ∧
      (createHandler tickets alert (.response false body) get).requests
        = [.postTicket (alert.getPropOpt "id") "Automated ticket from dashboard"]) ∧
    ((createHandler tickets alert first get).tickets = tickets ∨
      ∃ o w, get = .response o (some w) ∧ (createHandler tickets alert first get).tickets = w) ∧
    ((transitionHandler tickets ticket status first get).tickets = tickets ∨
      ∃ o w, get = .response o (some w) ∧
        (transitionHandler tickets ticket status first get).tickets = w) := by
  refine ⟨rfl, rfl, ⟨rfl, rfl⟩, ?_, ?_⟩
  · rcases first with _ | ⟨o1, b1⟩
    · left; rfl
    · cases o1
      · left; rfl
      · rcases get with _ | ⟨o2, b2⟩
        · left; rfl
        · cases b2 with
          | none => left; rfl
          | some w => right; exact ⟨o2, w, rfl, rfl⟩
  · rcases first with _ | ⟨o1, b1⟩
    · left; rfl
    · rcases get with _ | ⟨o2, b2⟩
      · left; rfl
      · cases b2 with
        | none => left; rfl
        | some w => right; exact ⟨o2, w, rfl, rfl⟩

/-- C9: in live mode a LineString feature with segment identifier `s` is
flagged alerted exactly when the location of the current alert (the head of
the alert log) is the string `s` as a whole; flagged it renders `#ef4444`,
weight 10, dash `10, 15`, otherwise `#3b82f6`, weight 6, no dash. Location
`A-B` does not flag segment `A`, although it flags the Point `A`. -/
theorem linestring_live_exact_match (f geometry alert riskData : JVal) (rest : List JVal)
    (s : String)
    (hg : f.getProp "geometry" = .ok geometry)
    (ht : geometry.getProp "type" = .ok (.str "LineString"))
    (hs : (f.getPropOpt "properties").getPropOpt "segment" = .str s)
    (hc : lineCoordsOk (geometry.getPropOpt "coordinates") = true) :
    (∃ flagged : Bool,
      (flagged = true ↔ alert.getPropOpt "location" = .str s) ∧
      renderFeature (alert :: rest) riskData "live" f =
        .ok (some (.polyline (.str s) flagged
          (if flagged then { color := "#ef4444", weight := 10, dashArray := some "10, 15" }
            else { color := "#3b82f6", weight := 6, dashArray := none })
          (if flagged then "LEAK DETECTED" else "Normal")))) ∧
    renderFeature [.obj [("location", .str "A-B")]] riskData "live"
        (.obj [("geometry", .obj [("type", .str "LineString"), ("coordinates", .arr [])]),
               ("properties", .obj [("segment", .str "A")])])
      = .ok (some (.polyline (.str "A") false
          { color := "#3b82f6", weight := 6, dashArray := none } "Normal")) ∧
    renderFeature [.obj [("location", .str "A-B")]] riskData "live"
        (.obj [("geometry", .obj [("type", .str "Point"), ("coordinates", .arr [])]),
               ("properties", .obj [("id", .str "A")])])
      = .ok (some (.marker (.str "A") "ALERT")) := by
  refine ⟨⟨(alert.getPropOpt "location").strictEq (.str s), strictEq_str _ _, ?_⟩, ?_, ?_⟩
  · rw [renderFeature_lineString (alert :: rest) riskData "live" f geometry (.str s) hg ht hs hc]
    have hloc : currentLocation (alert :: rest) = alert.getPropOpt "location" := rfl
    rw [hloc]
    cases (alert.getPropOpt "location").strictEq (.str s) <;> simp [pathOptions]
  · rw [renderFeature_lineString [.obj [("location", .str "A-B")]] riskData "live"
      (.obj [("geometry", .obj [("type", .str "LineString"), ("coordinates", .arr [])]),
             ("properties", .obj [("segment", .str "A")])])
      (.obj [("type", .str "LineString"), ("coordinates", .arr [])]) (.str "A") rfl rfl rfl rfl]
    rfl
  · rfl

/-- Witness for C9: segment `S12` under an alert located at `S12` renders
red, weight 10, dashed. -/
theorem linestring_live_exact_match_witness :
    ∃ flagged : Bool,
      (flagged = true ↔
        (JVal.obj [("id", .str "a1"), ("location", .str "S12")]).getPropOpt "location"
          = .str "S12") ∧
      renderFeature [.obj [("id", .str "a1"), ("location", .str "S12")]] .null "live"
          (.obj [("geometry", .obj [("type", .str "LineString"),
                    ("coordinates", .arr [.arr [.num 73, .num 18], .arr [.num 74, .num 19]])]),
                 ("properties", .obj [("segment", .str "S12")])]) =
        .ok (some (.polyline (.str "S12") flagged
          (if flagged then { color := "#ef4444", weight := 10, dashArray := some "10, 15" }
            else { color := "#3b82f6", weight := 6, dashArray := none })
          (if flagged then "LEAK DETECTED" else "Normal"))) :=
  (linestring_live_exact_match
    (.obj [("geometry", .obj [("type", .str "LineString"),
              ("coordinates", .arr [.arr [.num 73, .num 18], .arr [.num 74, .num 19]])]),
           ("properties", .obj [("segment", .str "S12")])])
    (.obj [("type", .str "LineString"),
      ("coordinates", .arr [.arr [.num 73, .num 18], .arr [.num 74, .num 19]])])
    (.obj [("id", .str "a1"), ("location", .str "S12")]) .null [] "S12" rfl rfl rfl rfl).1

/-- C10: in risk mode a LineString feature with segment identifier `s`
renders with weight 6, no dash and the colour chosen from
`riskData?.[s]?.status`: `#ef4444` when it is `Critical`, `#f97316` when it
is `Warning`, `#10b981` otherwise, in particular when `riskData` is `null`
or has no entry for `s`. The path options are the same for every alert log,
so for every current alert, one located at `s` included. -/
theorem linestring_risk_color (f geometry riskData : JVal) (s : String)
    (hg : f.getProp "geometry" = .ok geometry)
    (ht : geometry.getProp "type" = .ok (.str "LineString"))
    (hs : (f.getPropOpt "properties").getPropOpt "segment" = .str s)
    (hc : lineCoordsOk (geometry.getPropOpt "coordinates") = true) :
    ∃ color : String,
      (∀ alerts : List JVal, ∃ (flagged : Bool) (status : String),
        renderFeature alerts riskData "risk" f =
          .ok (some (.polyline (.str s) flagged
            { color := color, weight := 6, dashArray := none } status))) ∧
      ((riskData.getPropOpt s).getPropOpt "status" = .str "Critical" → color = "#ef4444") ∧
      ((riskData.getPropOpt s).getPropOpt "status" = .str "Warning" → color = "#f97316") ∧
      ((riskData.getPropOpt s).getPropOpt "status" ≠ .str "Critical" →
        (riskData.getPropOpt s).getPropOpt "status" ≠ .str "Warning" → color = "#10b981") ∧
      (riskData.isNullish = true → color = "#10b981") ∧
      (riskData.getPropOpt s = .undefined → color = "#10b981") := by
  have hkey : (JVal.str s).toKey = s := by simp [JVal.toKey]
  have hcol : riskColor riskData (.str s) =
      if ((riskData.getPropOpt s).getPropOpt "status").strictEq (.str "Critical") then "#ef4444"
      else if ((riskData.getPropOpt s).getPropOpt "status").strictEq (.str "Warning")
        then "#f97316" else "#10b981" := by
    simp only [riskColor, hkey]
  have hcrit := strictEq_str ((riskData.getPropOpt s).getPropOpt "status") "Critical"
  have hwarn := strictEq_str ((riskData.getPropOpt s).getPropOpt "status") "Warning"
  have hgreen : (riskData.getPropOpt s).getPropOpt "status" ≠ .str "Critical" →
      (riskData.getPropOpt s).getPropOpt "status" ≠ .str "Warning" →
      riskColor riskData (.str s) = "#10b981" := by
    intro h1 h2
    have h1' : ((riskData.getPropOpt s).getPropOpt "status").strictEq (.str "Critical") = false := by
      cases h : ((riskData.getPropOpt s).getPropOpt "status").strictEq (.str "Critical")
      · rfl
      · exact absurd (hcrit.mp h) h1
    have h2' : ((riskData.getPropOpt s).getPropOpt "status").strictEq (.str "Warning") = false := by
      cases h : ((riskData.getPropOpt s).getPropOpt "status").strictEq (.str "Warning")
      · rfl
      · exact absurd (hwarn.mp h) h2
    rw [hcol, h1', h2']
    simp
  have hundef : riskData.getPropOpt s = .undefined → riskColor riskData (.str s) = "#10b981" := by
    intro h
    apply hgreen <;> rw [h] <;> simp [JVal.getPropOpt, JVal.isNullish]
  refine ⟨riskColor riskData (.str s), ?_, ?_, ?_, hgreen, ?_, hundef⟩
  · intro alerts
    refine ⟨(currentLocation alerts).strictEq (.str s),
      (if (currentLocation alerts).strictEq (.str s) then "LEAK DETECTED" else "Normal"),
      (renderFeature_lineString alerts riskData "risk" f geometry (.str s) hg ht hs hc).trans ?_⟩
    have hne : ¬ ("risk" = "live") := by decide
    simp [pathOptions, hne]
  · intro h
    rw [hcol, hcrit.mpr h]
    simp
  · intro h
    have hnc : ((riskData.getPropOpt s).getPropOpt "status").strictEq (.str "Critical") = false := by
      rw [h]; decide
    rw [hcol, hnc, hwarn.mpr h]
    simp
  · intro h
    apply hundef
    simp [JVal.getPropOpt, h]

/-- Witness for C10: segment `S12` with `riskData.S12.status = 'Critical'` renders
`#ef4444`, weight 6, no dash, under an alert located at `S12`. -/
theorem linestring_risk_color_witness :
    ∃ color : String,
      (∀ alerts : List JVal, ∃ (flagged : Bool) (status : String),
        renderFeature alerts (.obj [("S12", .obj [("status", .str "Critical")])]) "risk"
            (.obj [("geometry", .obj [("type", .str "LineString"), ("coordinates", .arr [])]),
                   ("properties", .obj [("segment", .str "S12")])]) =
          .ok (some (.polyline (.str "S12") flagged
            { color := color, weight := 6, dashArray := none } status))) ∧
      color = "#ef4444" :=
  match linestring_risk_color
    (.obj [("geometry", .obj [("type", .str "LineString"), ("coordinates", .arr [])]),
           ("properties", .obj [("segment", .str "S12")])])
    (.obj [("type", .str "LineString"), ("coordinates", .arr [])])
    (.obj [("S12", .obj [("status", .str "Critical")])]) "S12" rfl rfl rfl rfl with
  | ⟨color, hrender, hcrit, _⟩ => ⟨color, hrender, hcrit rfl⟩

/-- C11: a Point feature is flagged alerted (popup status `ALERT`) exactly
when the location of the current alert is a string and the feature's id is
one of the tokens of `location.split('-')`; the flag is the same in every
view mode and for every risk mapping. The tokens are the hyphen-free pieces
of the location: joined with `-` they give the location back. -/
theorem point_flagged_by_token (f geometry alert : JVal) (rest : List JVal)
    (hg : f.getProp "geometry" = .ok geometry)
    (ht : geometry.getProp "type" = .ok (.str "Point"))
    (hc : (geometry.getPropOpt "coordinates").isNullish = false) :
    (∃ flagged : Bool,
      (flagged = true ↔
        ∃ l i, alert.getPropOpt "location" = .str l ∧
          (f.getPropOpt "properties").getPropOpt "id" = .str i ∧ i ∈ splitHyphen l) ∧
      ∀ (viewMode : String) (riskData : JVal),
        renderFeature (alert :: rest) riskData viewMode f =
          .ok (some (.marker ((f.getPropOpt "properties").getPropOpt "id")
            (if flagged then "ALERT" else "Normal")))) ∧
    (∀ l : String,
      (∀ t ∈ splitHyphen l, '-' ∉ t.data) ∧
      List.intercalate ['-'] ((splitHyphen l).map String.data) = l.data) := by
  constructor
  · refine ⟨isLeakingNode (alert.getPropOpt "location")
      ((f.getPropOpt "properties").getPropOpt "id"), isLeakingNode_iff _ _, ?_⟩
    intro viewMode riskData
    exact renderFeature_point (alert :: rest) riskData viewMode f geometry hg ht hc
  · intro l
    constructor
    · intro t ht'
      simp only [splitHyphen, List.mem_map] at ht'
      obtain ⟨cs, hcs, rfl⟩ := ht'
      exact splitChars_no_sep '-' l.data cs hcs
    · have : (splitHyphen l).map String.data = splitChars '-' l.data := by
        simp [splitHyphen, List.map_map, Function.comp_def]
      rw [this]
      exact splitChars_intercalate '-' l.data

/-- Witness for C11: node `N2` under an alert located at `N1-N2` shows
`ALERT`, in risk mode as well. -/
theorem point_flagged_by_token_witness :
    renderFeature [.obj [("location", .str "N1-N2")]] .null "risk"
        (.obj [("geometry", .obj [("type", .str "Point"),
                  ("coordinates", .arr [.num 73, .num 18])]),
               ("properties", .obj [("id", .str "N2")])])
      = .ok (some (.marker (.str "N2") "ALERT")) :=
  match (point_flagged_by_token
    (.obj [("geometry", .obj [("type", .str "Point"),
              ("coordinates", .arr [.num 73, .num 18])]),
           ("properties", .obj [("id", .str "N2")])])
    (.obj [("type", .str "Point"), ("coordinates", .arr [.num 73, .num 18])])
    (.obj [("location", .str "N1-N2")]) [] rfl rfl rfl).1 with
  | ⟨true, _, hrender⟩ => hrender "risk" .null
  | ⟨false, hiff, _⟩ =>
    absurd (hiff.mpr ⟨"N1-N2", "N2", rfl, rfl, by decide⟩) (by decide)

/-- C12: on a topology whose features have the shape of the interface, a
feature whose geometry type is neither `Point` nor `LineString` yields no
render state and no error; the map layer evaluates without error, its render
states are those of the Point and LineString features in topology order, and
there are as many of them as there are such features. -/
theorem unknown_geometry_ignored (geoJson riskData : JVal) (alerts fs : List JVal)
    (viewMode : String)
    (hfeat : geoJson.getPropOpt "features" = .arr fs)
    (hfs : ∀ f ∈ fs, featureShaped f = true) :
    (∀ f ∈ fs, isPointOrLine f = false →
      renderFeature alerts riskData viewMode f = .ok none) ∧
    ∃ rs, project geoJson alerts riskData viewMode = .ok rs ∧
      rs.length = (fs.filter isPointOrLine).length ∧
      List.Forall₂ (fun f r => renderFeature alerts riskData viewMode f = .ok (some r))
        (fs.filter isPointOrLine) rs := by
  constructor
  · intro f hf hnot
    rcases renderFeature_shaped alerts riskData viewMode f (hfs f hf) with ⟨hpl, _⟩ | ⟨_, hr⟩
    · rw [hnot] at hpl
      cases hpl
    · exact hr
  · obtain ⟨rs, hrs, hall⟩ := renderAll_shaped alerts riskData viewMode fs hfs
    have htruthy : geoJson.truthy = true := by
      cases geoJson <;> simp_all [JVal.getPropOpt, JVal.isNullish, JVal.member, JVal.truthy]
    refine ⟨rs, ?_, hall.length_eq.symm, hall⟩
    unfold project
    rw [hfeat, htruthy]
    simp [JVal.truthy, hrs]

/-- Witness for C12: a topology with a Point, a Polygon and a LineString gives
two render states, the marker first. -/
theorem unknown_geometry_ignored_witness :
    ∃ rs, project
        (.obj [("features", .arr [
          .obj [("geometry", .obj [("type", .str "Point"), ("coordinates", .arr [.num 1, .num 2])]),
                ("properties", .obj [("id", .str "N1")])],
          .obj [("geometry", .obj [("type", .str "Polygon"), ("coordinates", .arr [])])],
          .obj [("geometry", .obj [("type", .str "LineString"),
                  ("coordinates", .arr [.arr [.num 1, .num 2]])]),
                ("properties", .obj [("segment", .str "S1")])]])])
        [] .null "live" = .ok rs ∧ rs.length = 2 :=
  match (unknown_geometry_ignored
    (.obj [("features", .arr [
      .obj [("geometry", .obj [("type", .str "Point"), ("coordinates", .arr [.num 1, .num 2])]),
            ("properties", .obj [("id", .str "N1")])],
      .obj [("geometry", .obj [("type", .str "Polygon"), ("coordinates", .arr [])])],
      .obj [("geometry", .obj [("type", .str "LineString"),
              ("coordinates", .arr [.arr [.num 1, .num 2]])]),
            ("properties", .obj [("segment", .str "S1")])]])])
    .null []
    [.obj [("geometry", .obj [("type", .str "Point"), ("coordinates", .arr [.num 1, .num 2])]),
           ("properties", .obj [("id", .str "N1")])],
     .obj [("geometry", .obj [("type", .str "Polygon"), ("coordinates", .arr [])])],
     .obj [("geometry", .obj [("type", .str "LineString"),
             ("coordinates", .arr [.arr [.num 1, .num 2]])]),
           ("properties", .obj [("segment", .str "S1")])]]
    "live" rfl
    (by intro f hf; simp at hf; rcases hf with rfl | rfl | rfl <;> decide)).2 with
  | ⟨rs, hproj, hlen, _⟩ => ⟨rs, hproj, hlen.trans (by decide)⟩

/-- C13, the code at the failing input: the session is started, then stopped
by the effect cleanup, which closes the socket. The close event of that
socket schedules a reconnect timer, and when the timer fires a new socket is
opened after the stop. A reconnect timer scheduled by a server drop before
the stop is not cancelled by it either and opens a socket after it. -/
theorem stop_does_not_suppress_reconnect :
    (effectCleanup (effectBody (Engine.initial true))).sockets = [.closing] ∧
    (closeEvent (effectCleanup (effectBody (Engine.initial true))) 0).reconnectTimers = 1 ∧
    (reconnectFires (closeEvent (effectCleanup (effectBody (Engine.initial true))) 0)).sockets
      = [.closed, .active] ∧
    (effectCleanup (closeEvent (effectBody (Engine.initial true)) 0)).reconnectTimers = 1 ∧
    (reconnectFires (effectCleanup (closeEvent (effectBody (Engine.initial true)) 0))).sockets
      = [.closed, .active] := by
  decide

/-- C14, the code at the failing input: with no token in `localStorage` the
first effect run starts the poll timer and opens a socket; and a logout
removes the token, cleans the effect up and runs it again, so that the poll
timer is active and a new socket is open while logged out. -/
theorem engine_runs_without_token :
    (effectBody (Engine.initial false)).token = false ∧
    (effectBody (Engine.initial false)).isLoggedIn = false ∧
    (effectBody (Engine.initial false)).pollTimer = true ∧
    (effectBody (Engine.initial false)).sockets = [.active] ∧
    (effectBody (Engine.initial false)).running = true ∧
    (logout (effectBody (Engine.initial true))).token = false ∧
    (logout (effectBody (Engine.initial true))).isLoggedIn = false ∧
    (logout (effectBody (Engine.initial true))).pollTimer = true ∧
    (logout (effectBody (Engine.initial true))).sockets = [.closing, .active] ∧
    (logout (effectBody (Engine.initial true))).running = true := by
  decide

/-- C15: `viewMode` starts as `live`; after every sequence of events it is
`live` or `risk`; and a click on the Live or the Risk button writes
`viewMode` and nothing else, so the telemetry window, the alert log and the
ticket list are the same before and after. -/
theorem view_mode_live_or_risk (env : Env) (token : Bool) (events : List Event)
    (s : Dashboard) :
    (Dashboard.initial token).viewMode = "live" ∧
    ((run env (Dashboard.initial token) events).viewMode = "live" ∨
      (run env (Dashboard.initial token) events).viewMode = "risk") ∧
    step env s .clickLive = { s with viewMode := "live" } ∧
    step env s .clickRisk = { s with viewMode := "risk" } ∧
    ((step env s .clickLive).telemetry = s.telemetry ∧
      (step env s .clickLive).alerts = s.alerts ∧
      (step env s .clickLive).snapshots.tickets = s.snapshots.tickets) ∧
    ((step env s .clickRisk).telemetry = s.telemetry ∧
      (step env s .clickRisk).alerts = s.alerts ∧
      (step env s .clickRisk).snapshots.tickets = s.snapshots.tickets) :=
  ⟨rfl, run_viewMode env events (Dashboard.initial token) (Or.inl rfl), rfl, rfl,
    ⟨rfl, rfl, rfl⟩, ⟨rfl, rfl, rfl⟩⟩

/-- C16 as stated fails: when the POST of `changeMode` is rejected (network
failure) the request has settled and the acknowledged mode is not set to the
requested mode. -/
theorem mode_not_set_on_rejection :
    (changeMode (Dashboard.initial true) "major_burst" .rejected).currentMode = "normal" ∧
    (changeMode (Dashboard.initial true) "major_burst" .rejected).currentMode ≠ "major_burst" := by
  decide

/-- C16, amended: while the request is in flight the state is unchanged; once
a response arrives, of any status and with any body, the acknowledged mode is
the requested mode and no other state cell changes; when the request is
rejected the state, acknowledged mode included, is unchanged. -/
theorem mode_set_on_any_response (s : Dashboard) (mode : String) (ok : Bool)
    (body : Option JVal) :
    changeModeIssued s mode = s ∧
    changeMode s mode (.response ok body) = { s with currentMode := mode } ∧
    (changeMode s mode (.response ok body)).currentMode = mode ∧
    changeMode s mode .rejected = s :=
  ⟨rfl, rfl, rfl, rfl⟩

/-- C17 as stated fails: a message whose text is the JSON number `5`, or the
JSON string `"hello"`, is not an Alert object, and it is prepended to the
alert log and triggers an analytics refresh. -/
theorem non_alert_payload_accepted :
    onMessage [] (some (.num 5)) = ([.num 5], true) ∧
    onMessage [.obj [("id", .str "a1")]] (some (.str "hello"))
      = ([.str "hello", .obj [("id", .str "a1")]], true) := by
  constructor <;> rfl

/-- C17, amended: a message that is not valid JSON, or that parses to a
falsy value (`null`, `false`, `0`, `''`), leaves the alert log unchanged and
triggers no refresh; a message that parses to any truthy value, every object
included, is prepended once (the log keeps its 9 newest entries behind it)
and triggers one refresh. -/
theorem falsy_payload_dropped (alerts : List JVal) (v : JVal) (kvs : List (String × JVal)) :
    onMessage alerts none = (alerts, false) ∧
    onMessage alerts (some v) =
      (if v.truthy = true then (v :: alerts.take 9, true) else (alerts, false)) ∧
    onMessage alerts (some .null) = (alerts, false) ∧
    onMessage alerts (some (.obj kvs)) = (.obj kvs :: alerts.take 9, true) := by
  refine ⟨rfl, ?_, rfl, ?_⟩
  · simp only [onMessage, alertStep, jsSlice_first9]
  · simp only [onMessage, alertStep, jsSlice_first9, JVal.truthy, if_true]

/-- C18: a tick whose fetch fails (rejected, status that is not a success, or
body that fails to parse) returns the state it was given, so the telemetry
window and the stats are unchanged and nothing is thrown; and the next tick
gives the same result as if the failed tick had not happened. -/
theorem failed_tick_skipped (env : Env) (s : Dashboard) (now : Int) (o : FetchOutcome)
    (hfail : o.failed = true) :
    tick env s now o = s ∧
    (tick env s now o).telemetry = s.telemetry ∧
    (tick env s now o).stats = s.stats ∧
    ∀ (now2 : Int) (o2 : FetchOutcome),
      tick env (tick env s now o) now2 o2 = tick env s now2 o2 := by
  have h : tick env s now o = s := by
    obtain ⟨e, he⟩ := tickBody_of_failed env s now o hfail
    simp only [tick, he]
  refine ⟨h, by rw [h], by rw [h], ?_⟩
  intro now2 o2
  rw [h]

/-- Witness for C18: a tick answered with status 500 leaves the initial
state as it is. -/
theorem failed_tick_skipped_witness :
    tick { parseDate := fun _ => none, formatTime := fun _ => "00:00" }
      (Dashboard.initial true) 1000 (.response false (some (.obj [("detail", .str "down")])))
      = Dashboard.initial true :=
  (failed_tick_skipped { parseDate := fun _ => none, formatTime := fun _ => "00:00" }
    (Dashboard.initial true) 1000 (.response false (some (.obj [("detail", .str "down")])))
    rfl).1

/-- C19 as stated fails: the server payload carries `timestamp: 0`, a field
that is present and converts to the valid instant 0, and the appended sample
takes its time from the local clock (1000), because `0` is falsy. -/
theorem zero_timestamp_uses_local_clock :
    newDate { parseDate := fun _ => none,
              formatTime := fun t => if t = 0 then "epoch" else "local" } (.num 0) = some 0 ∧
    (tick { parseDate := fun _ => none,
            formatTime := fun t => if t = 0 then "epoch" else "local" }
        (Dashboard.initial true) 1000
        (.response true (some (.obj [("pressure", .num 5), ("timestamp", .num 0)])))).telemetry
      = [.obj [("pressure", .num 5), ("timestamp", .num 0), ("time", .str "local")]] := by
  constructor <;> rfl

/-- C19, amended: for a successful sample whose payload is not `null`, the
appended sample is the payload's own properties with `time` written from the
chosen instant. The instant is the server-reported timestamp when that field
is truthy and converts to a valid date; it is the local clock when the field
is falsy (absent, `null`, `0`, `''`, `false`) or converts to an invalid
date. Every property of an object payload other than `time` is carried into
the sample unchanged. -/
theorem sample_time_selection (env : Env) (s : Dashboard) (now : Int) (data : JVal)
    (hdata : data.isNullish = false) :
    (tick env s now (.response true (some data))).telemetry
      = telemetryStep s.telemetry (makeSample env now data) ∧
    (makeSample env now data).member "time"
      = .str (env.formatTime (sampleInstant env now (data.member "timestamp"))) ∧
    (∀ t, (data.member "timestamp").truthy = true →
      newDate env (data.member "timestamp") = some t →
      sampleInstant env now (data.member "timestamp") = t) ∧
    ((data.member "timestamp").truthy = false →
      sampleInstant env now (data.member "timestamp") = now) ∧
    (newDate env (data.member "timestamp") = none →
      sampleInstant env now (data.member "timestamp") = now) ∧
    (∀ kvs k, data = .obj kvs → k ≠ "time" →
      (makeSample env now data).member k = data.member k) := by
  refine ⟨?_, ?_, ?_, ?_, ?_, ?_⟩
  · simp only [tick, tickBody, getProp_of_not_nullish data _ hdata]
  · simp only [makeSample, JVal.member, lookup_setKey_self]
  · intro t ht hd
    simp only [sampleInstant, ht, hd, if_true]
  · intro hf
    simp [sampleInstant, hf]
  · intro hd
    simp only [sampleInstant, hd]
    split <;> rfl
  · intro kvs k hk hne
    subst hk
    simp only [makeSample, JVal.member, ownProps, lookup_setKey_other _ _ _ _ hne]

/-- Witness for the amended C19: a payload with the numeric timestamp 5000
gives a sample whose time is formatted from 5000, not from the local clock
1000. -/
theorem sample_time_selection_witness :
    (tick { parseDate := fun _ => none, formatTime := fun t => if t = 5000 then "server" else "local" }
        (Dashboard.initial true) 1000
        (.response true (some (.obj [("pressure", .num 5), ("timestamp", .num 5000)])))).telemetry
      = [.obj [("pressure", .num 5), ("timestamp", .num 5000), ("time", .str "server")]] :=
  (sample_time_selection
    { parseDate := fun _ => none, formatTime := fun t => if t = 5000 then "server" else "local" }
    (Dashboard.initial true) 1000
    (.obj [("pressure", .num 5), ("timestamp", .num 5000)]) rfl).1.trans rfl

/-- C20 as stated fails: a login response with success status whose body is
the JSON value `null` stores no token and fires no login signal; the form
shows `Server connection failed`. A response with a status that is not a
success and the body `null` shows `Server connection failed` as well, not
`Authentication failed`. -/
theorem null_body_login_rejected :
    (handleSubmit LoginState.initial (.response true (some .null))).token = none ∧
    (handleSubmit LoginState.initial (.response true (some .null))).loginSignals = 0 ∧
    (handleSubmit LoginState.initial (.response true (some .null))).error
      = .str "Server connection failed" ∧
    (handleSubmit LoginState.initial (.response false (some .null))).error
      = .str "Server connection failed" := by
  refine ⟨rfl, rfl, rfl, rfl⟩

/-- C20, amended: every login attempt sends one request and ends with
`loading = false`. With a body that parses to a value other than `null`, a
success status stores the token (the `access_token` of the body as a string)
and fires the login signal once with no error shown, and a status that is
not a success stores no token, fires no signal and shows the body's `detail`
or, when that is falsy, `Authentication failed`. On a network failure, a
body that fails to parse, or a body that parses to `null`, no token is
stored, no signal fires and the error is `Server connection failed`. -/
theorem login_outcome (s : LoginState) (o : FetchOutcome) (data : JVal) (ok : Bool)
    (hdata : data.isNullish = false) :
    ((handleSubmit s o).loading = false ∧ (handleSubmit s o).requests = s.requests + 1) ∧
    handleSubmit s (.response true (some data)) =
      { error := .str "", loading := false,
        token := some (data.member "access_token").toKey,
        loginSignals := s.loginSignals + 1, requests := s.requests + 1 } ∧
    handleSubmit s (.response false (some data)) =
      { error := jsOr (data.member "detail") (.str "Authentication failed"), loading := false,
        token := s.token, loginSignals := s.loginSignals, requests := s.requests + 1 } ∧
    handleSubmit s .rejected =
      { error := .str "Server connection failed", loading := false,
        token := s.token, loginSignals := s.loginSignals, requests := s.requests + 1 } ∧
    handleSubmit s (.response ok none) =
      { error := .str "Server connection failed", loading := false,
        token := s.token, loginSignals := s.loginSignals, requests := s.requests + 1 } ∧
    handleSubmit s (.response ok (some .null)) =
      { error := .str "Server connection failed", loading := false,
        token := s.token, loginSignals := s.loginSignals, requests := s.requests + 1 } := by
  refine ⟨?_, ?_, ?_, rfl, ?_, ?_⟩
  · rcases o with _ | ⟨ok', body⟩
    · exact ⟨rfl, rfl⟩
    · cases body with
      | none => cases ok' <;> exact ⟨rfl, rfl⟩
      | some d =>
        cases ok'
        · simp only [handleSubmit, submitBody]
          cases d.getProp "detail" <;> exact ⟨rfl, rfl⟩
        · simp only [handleSubmit, submitBody]
          cases d.getProp "access_token" <;> exact ⟨rfl, rfl⟩
  · simp only [handleSubmit, submitBody, getProp_of_not_nullish data _ hdata]
  · simp only [handleSubmit, submitBody, getProp_of_not_nullish data _ hdata]
  · cases ok <;> rfl
  · cases ok <;> rfl

/-- Witness for the amended C20: status 200 with `{access_token: 'abc'}` stores
the token `abc` and fires the login signal. -/
theorem login_outcome_witness :
    handleSubmit LoginState.initial (.response true (some (.obj [("access_token", .str "abc")])))
      = { error := .str "", loading := false, token := some "abc",
          loginSignals := 1, requests := 1 } :=
  (login_outcome LoginState.initial .rejected (.obj [("access_token", .str "abc")]) true rfl).2.1

/-- C21, the code at the failing input: the alert log is empty and the view
mode is `live`. A LineString feature whose properties lack `segment` is
flagged alerted, because `alerts[0]?.location` and `f.properties?.segment`
are both `undefined`: it renders `#ef4444`, weight 10, dash `10, 15`, status
`LEAK DETECTED`, and so does one that has no `properties` at all. In the
same topology the Point without an id shows `Normal` and the LineString with
a segment renders normal. -/
theorem segmentless_line_flagged_without_alert :
    renderFeature [] .null "live"
        (.obj [("geometry", .obj [("type", .str "LineString"),
                  ("coordinates", .arr [.arr [.num 73, .num 18], .arr [.num 74, .num 19]])]),
               ("properties", .obj [("name", .str "main")])])
      = .ok (some (.polyline .undefined true
          { color := "#ef4444", weight := 10, dashArray := some "10, 15" } "LEAK DETECTED")) ∧
    renderFeature [] .null "live"
        (.obj [("geometry", .obj [("type", .str "LineString"),
                  ("coordinates", .arr [.arr [.num 73, .num 18], .arr [.num 74, .num 19]])])])
      = .ok (some (.polyline .undefined true
          { color := "#ef4444", weight := 10, dashArray := some "10, 15" } "LEAK DETECTED")) ∧
    project
        (.obj [("features", .arr [
          .obj [("geometry", .obj [("type", .str "Point"), ("coordinates", .arr [.num 73, .num 18])]),
                ("properties", .obj [])],
          .obj [("geometry", .obj [("type", .str "LineString"),
                  ("coordinates", .arr [.arr [.num 73, .num 18], .arr [.num 74, .num 19]])]),
                ("properties", .obj [("segment", .str "S12")])],
          .obj [("geometry", .obj [("type", .str "LineString"),
                  ("coordinates", .arr [.arr [.num 73, .num 18], .arr [.num 74, .num 19]])]),
                ("properties", .obj [])]])])
        [] .null "live"
      = .ok [.marker .undefined "Normal",
             .polyline (.str "S12") false
               { color := "#3b82f6", weight := 6, dashArray := none } "Normal",
             .polyline .undefined true
               { color := "#ef4444", weight := 10, dashArray := some "10, 15" }
               "LEAK DETECTED"] := by
  refine ⟨rfl, rfl, rfl⟩

/-- C22, the code at the failing input: the ticket list is empty, an alert
`a1` arrives, and the operator clicks "Create Maintenance Ticket". The POST
succeeds and the following GET of the ticket list answers with the JSON
object `{detail: 'Internal Server Error'}`. The handler stores that object
as the ticket snapshot: it is not an array, and the correlation lookup of the
next render throws a `TypeError`. The same body received by `fetchAnalytics`
is replaced by `[]`. A Dispatch click whose GET answers with that body
leaves a snapshot that is not an array either. -/
theorem handler_stores_non_array_tickets :
    (run { parseDate := fun _ => none, formatTime := fun _ => "00:00" }
        (Dashboard.initial true)
        [.message (some (.obj [("id", .str "a1"), ("location", .str "S12")])),
         .rowClick 0 .createTicket (.response true (some (.obj [("id", .str "t1")])))
           (.response false (some (.obj [("detail", .str "Internal Server Error")])))
        ]).snapshots.tickets
      = .obj [("detail", .str "Internal Server Error")] ∧
    (JVal.obj [("detail", .str "Internal Server Error")]).isArray = false ∧
    findTicket (.obj [("detail", .str "Internal Server Error")])
        (.obj [("id", .str "a1"), ("location", .str "S12")])
      = .error .typeError ∧
    (fetchAnalytics Snapshots.initial
        (fun _ => .response true (some (.obj [("detail", .str "Internal Server Error")])))).tickets
      = .arr [] ∧
    (transitionHandler
        (.arr [.obj [("id", .str "t1"), ("alert_id", .str "a1"), ("status", .str "Open")]])
        (.obj [("id", .str "t1"), ("alert_id", .str "a1"), ("status", .str "Open")])
        "In Progress" (.response true none)
        (.response true (some (.str "maintenance")))).tickets
      = .str "maintenance" := by
  refine ⟨rfl, rfl, rfl, rfl, rfl⟩

end LeakWatch
